import Mathlib

/-!
Verification development for the go-pduckdb driver core.

Shallow embedding of the driver's boundary layer:
* the C-string bridge (`internal/duckdb/library.go`),
* the value conversion package (`internal/convert`),
* the type-directed parameter binder (`internal/duckdb/statement.go` and the
  `PreparedStatement` methods of `conn.go`),
* the result-cell decoder (`internal/duckdb/result.go`),
* the prepared-statement lifecycle (`conn.go`).

Modelling conventions:
* Go strings and byte slices are `List UInt8` (a Go string is an immutable
  byte sequence).
* A C pointer that may be nil is `Option (List UInt8)`, the payload being the
  bytes in memory starting at the pointed-to address.
* Go machine integers are `Int` together with well-typedness bounds; Go's
  wrapping integer conversions are modelled explicitly (`wrapToInt64`,
  `wrapToUint64`, `IntType.wrap`).
* Go `float32`/`float64` values are modelled by their exact rational value.
* A nilable native function slot is modelled by its availability (`Bool` or
  `Option`), and the native library's reply to an issued bind call by a
  `respond` function on the call description, so that theorems can observe
  exactly which native entry point a bind routed through.
-/

namespace PDuckDB

/-- `DuckDBState` from `internal/duckdb` (part_007): 0 = success, else error. -/
inductive DuckDBState where
  | success
  | failure
  deriving DecidableEq, Repr

/-- `DuckDBType` from `internal/duckdb` (part_007), the native type tags. -/
inductive DuckDBType where
  | invalid
  | boolean
  | tinyint
  | smallint
  | integer
  | bigint
  | utinyint
  | usmallint
  | uinteger
  | ubigint
  | float
  | double
  | timestamp
  | date
  | time
  | interval
  | hugeint
  | uhugeint
  | varchar
  | blob
  | decimal
  | timestampS
  | timestampMS
  | timestampNS
  | enum
  | list
  | struct
  | map
  | array
  | uuid
  | union
  | bit
  | timeTZ
  | timestampTZ
  | any
  | varint
  | sqlnull
  | stringLiteral
  | integerLiteral
  deriving DecidableEq, Repr

/-- A Go string / byte slice, as a byte sequence. -/
abbrev GoStr := List UInt8

/-- The dynamically-typed Go value (`any`) handed to the binder and the
conversion functions.  Constructors follow the Go types switched on by the
source: `bool`, the signed/unsigned fixed-width integers plus `int`/`uint`,
`float32`/`float64` (modelled by exact rationals), `string`, `[]byte`,
`time.Time` (an instant, UTC nanoseconds since the Unix epoch),
`convert.Date` (`Days`), `convert.Time` (`Micros`), `types.JSON`, and Go
maps/slices for the composite JSON fallback. -/
inductive GoValue where
  | vNil
  | vBool (b : Bool)
  | vInt8 (v : Int)
  | vInt16 (v : Int)
  | vInt32 (v : Int)
  | vInt64 (v : Int)
  | vInt (v : Int)
  | vUint8 (v : Int)
  | vUint16 (v : Int)
  | vUint32 (v : Int)
  | vUint64 (v : Int)
  | vUint (v : Int)
  | vFloat32 (q : ℚ)
  | vFloat64 (q : ℚ)
  | vString (s : GoStr)
  | vBytes (bs : GoStr)
  | vTimeT (nanos : Int)
  | vDate (days : Int)
  | vTime (micros : Int)
  | vJSON (s : GoStr)
  | vMap (entries : List (GoStr × GoValue))
  | vList (elems : List GoValue)

/-- The mathematical value of an integer-typed host value
(`int8..int64`, `int`, `uint8..uint64`, `uint`), `none` otherwise. -/
def GoValue.intVal? : GoValue → Option Int
  | .vInt8 v => some v
  | .vInt16 v => some v
  | .vInt32 v => some v
  | .vInt64 v => some v
  | .vInt v => some v
  | .vUint8 v => some v
  | .vUint16 v => some v
  | .vUint32 v => some v
  | .vUint64 v => some v
  | .vUint v => some v
  | _ => none

/-- The host value is one of Go's signed integer types
(`int8`, `int16`, `int32`, `int64`, `int`). -/
def GoValue.signedIntHost : GoValue → Prop
  | .vInt8 _ => True
  | .vInt16 _ => True
  | .vInt32 _ => True
  | .vInt64 _ => True
  | .vInt _ => True
  | _ => False

/-- The host value is one of Go's unsigned integer types
(`uint8`, `uint16`, `uint32`, `uint64`, `uint`). -/
def GoValue.unsignedIntHost : GoValue → Prop
  | .vUint8 _ => True
  | .vUint16 _ => True
  | .vUint32 _ => True
  | .vUint64 _ => True
  | .vUint _ => True
  | _ => False

/-- The carried `Int` is inside the range of the Go type of the constructor
(`int`/`uint` taken as 64-bit, as on all platforms the driver targets). -/
def GoValue.WellTyped : GoValue → Prop
  | .vInt8 v => -(2 ^ 7) ≤ v ∧ v < 2 ^ 7
  | .vInt16 v => -(2 ^ 15) ≤ v ∧ v < 2 ^ 15
  | .vInt32 v => -(2 ^ 31) ≤ v ∧ v < 2 ^ 31
  | .vInt64 v => -(2 ^ 63) ≤ v ∧ v < 2 ^ 63
  | .vInt v => -(2 ^ 63) ≤ v ∧ v < 2 ^ 63
  | .vUint8 v => 0 ≤ v ∧ v < 2 ^ 8
  | .vUint16 v => 0 ≤ v ∧ v < 2 ^ 16
  | .vUint32 v => 0 ≤ v ∧ v < 2 ^ 32
  | .vUint64 v => 0 ≤ v ∧ v < 2 ^ 64
  | .vUint v => 0 ≤ v ∧ v < 2 ^ 64
  | _ => True

/-! ## C-string bridge (`internal/duckdb/library.go`) -/

/-- `GoBytes` (library.go:122): converts a C string to a Go byte slice.
A nil pointer gives the nil slice; otherwise the bytes at the pointed-to
address are scanned one at a time until the first zero byte. -/
def GoBytes : Option GoStr → GoStr
  | none => []
  | some mem => mem.takeWhile (fun b => b ≠ 0)

/-- `GoString` (library.go:143): converts a C string to a Go string
(`string(GoBytes(c))`). -/
def GoString (c : Option GoStr) : GoStr :=
  GoBytes c

/-- `ToCString` (library.go:148): allocates a buffer of `len(s)+1` bytes,
copies `s`, and writes a zero terminator in the last byte; the returned
pointer points at the start of that buffer. -/
def ToCString (s : GoStr) : GoStr :=
  s ++ [0]

/-! ## The conversion package (`internal/convert`) -/

/-- Error cases of the conversion functions.  The Go code returns string
errors built with `fmt.Errorf`; each constructor stands for one error site:
`outOfRange` for "value %d out of range for %T", `notExact` for
"value %f cannot be exactly represented as %T", `parse` for
"cannot parse / cannot convert string ...", and `unsupported` for
"cannot convert %T to ...". -/
inductive ConvErr where
  | outOfRange (v : Int)
  | notExact (q : ℚ)
  | parse (s : GoStr)
  | unsupported
  deriving DecidableEq, Repr

/-- A Go fixed-width integer type: signedness and bit width.  The generic
`ToIntX[T]` of the source is instantiated at exactly the eight types
`int8..int64`, `uint8..uint64`; the `minValue`/`maxValue` arguments passed at
each call site are precisely `IntType.minVal`/`IntType.maxVal` below. -/
structure IntType where
  signed : Bool
  bits : Nat
  deriving DecidableEq, Repr

/-- The smallest value of the Go type (`math.MinIntN` / `0`). -/
def IntType.minVal (t : IntType) : Int :=
  if t.signed then -(2 ^ (t.bits - 1)) else 0

/-- The largest value of the Go type (`math.MaxIntN` / `math.MaxUintN`). -/
def IntType.maxVal (t : IntType) : Int :=
  if t.signed then 2 ^ (t.bits - 1) - 1 else 2 ^ t.bits - 1

/-- Go's (wrapping) conversion of an integer value to the type `t`. -/
def IntType.wrap (t : IntType) (x : Int) : Int :=
  if t.signed then (x + 2 ^ (t.bits - 1)).emod (2 ^ t.bits) - 2 ^ (t.bits - 1)
  else x.emod (2 ^ t.bits)

/-- Go's (wrapping) conversion `int64(x)` applied to a value of some other
integer type; in `ToIntX` it is applied to `minValue`/`maxValue`, so for the
`uint64` instantiation `int64(maxValue)` wraps to `-1`. -/
def wrapToInt64 (x : Int) : Int :=
  (x + 2 ^ 63).emod (2 ^ 64) - 2 ^ 63

/-- Go's (wrapping) conversion `uint64(x)`; for a negative `minValue` of a
signed instantiation it wraps to a value near `2^64`. -/
def wrapToUint64 (x : Int) : Int :=
  x.emod (2 ^ 64)

/-- Truncation toward zero, Go's defined float-to-integer conversion on
in-range values (`T(v)` for a float `v`). -/
def ratTrunc (q : ℚ) : Int :=
  q.num.tdiv (q.den : Int)

def int8T : IntType := ⟨true, 8⟩

def int16T : IntType := ⟨true, 16⟩

def int32T : IntType := ⟨true, 32⟩

def int64T : IntType := ⟨true, 64⟩

def uint8T : IntType := ⟨false, 8⟩

def uint16T : IntType := ⟨false, 16⟩

def uint32T : IntType := ⟨false, 32⟩

def uint64T : IntType := ⟨false, 64⟩

/-- Decimal digit run to a number; `none` if empty or a non-digit occurs. -/
def parseDecDigits (s : GoStr) : Option Nat :=
  if s.isEmpty then none
  else
    s.foldl
      (fun acc d =>
        acc.bind fun n =>
          if 48 ≤ d.toNat ∧ d.toNat ≤ 57 then some (n * 10 + (d.toNat - 48))
          else none)
      (some 0)

/-- `strconv.ParseInt(v, 10, 64)`: optional sign, decimal digits, result
within the `int64` range; `none` models a non-nil error (syntax or range). -/
def parseInt64 (s : GoStr) : Option Int :=
  match s with
  | 43 :: rest =>
    (parseDecDigits rest).bind fun n =>
      if (n : Int) ≤ 2 ^ 63 - 1 then some (n : Int) else none
  | 45 :: rest =>
    (parseDecDigits rest).bind fun n =>
      if (n : Int) ≤ 2 ^ 63 then some (-(n : Int)) else none
  | _ =>
    (parseDecDigits s).bind fun n =>
      if (n : Int) ≤ 2 ^ 63 - 1 then some (n : Int) else none

namespace ToIntX

/-- The shared body of the `int8`, `int16`, `int32`, `int64` and `int` cases
of `ToIntX` (part_009): `if int64(v) < int64(minValue) || int64(v) >
int64(maxValue) { error } ; return T(v)`.  The host value is already an
`int64`-ranged integer, so `int64(v) = v`; the bounds go through the wrapping
conversion. -/
def signedHostCase (t : IntType) (v : Int) : Except ConvErr Int :=
  if v < wrapToInt64 t.minVal ∨ v > wrapToInt64 t.maxVal then
    .error (.outOfRange v)
  else
    .ok (t.wrap v)

/-- The shared body of the `uint8`..`uint64` and `uint` cases of `ToIntX`:
`if uint64(v) < uint64(minValue) || uint64(v) > uint64(maxValue) { error } ;
return T(v)`.  The host value is non-negative, so `uint64(v) = v`; the
bounds go through the wrapping conversion. -/
def unsignedHostCase (t : IntType) (v : Int) : Except ConvErr Int :=
  if v < wrapToUint64 t.minVal ∨ v > wrapToUint64 t.maxVal then
    .error (.outOfRange v)
  else
    .ok (t.wrap v)

/-- The `float32`/`float64` cases of `ToIntX`:
`if v < T2(minValue) || v > T2(maxValue) || T2(T(v)) != v { error } ;
return T(v)`.  The float is modelled by its exact rational value and the
bounds by their exact integer values: for every representable float input the
source's combined test accepts exactly the integral values inside
`[minValue, maxValue]`, which is what the exact-rational test below accepts
(a float whose value exceeds the range by less than the rounding error of the
float-converted bound fails the source's round-trip test instead of its bound
test, with the same resulting error). -/
def floatHostCase (t : IntType) (q : ℚ) : Except ConvErr Int :=
  if q < (t.minVal : ℚ) ∨ q > (t.maxVal : ℚ) ∨ (ratTrunc q : ℚ) ≠ q then
    .error (.notExact q)
  else
    .ok (ratTrunc q)

/-- The `string` case of `ToIntX`: `strconv.ParseInt(v, 10, 64)`, then the
same wrapped-bound comparison as the signed-host case on the parsed value. -/
def stringHostCase (t : IntType) (s : GoStr) : Except ConvErr Int :=
  match parseInt64 s with
  | none => .error (.parse s)
  | some i =>
    if i < wrapToInt64 t.minVal ∨ i > wrapToInt64 t.maxVal then
      .error (.outOfRange i)
    else
      .ok (t.wrap i)

end ToIntX

/-- `ToIntX` (part_009:52): generic conversion of a host value to the Go
integer type `t`, switching on the dynamic type of the value.  The Go cases
for the five signed (resp. five unsigned) host types have identical bodies
and share `signedHostCase` (resp. `unsignedHostCase`) here.  The `bool` case
returns `1`/`0` with no range check. -/
def ToIntX (t : IntType) (value : GoValue) : Except ConvErr Int :=
  match value with
  | .vInt8 v => ToIntX.signedHostCase t v
  | .vInt16 v => ToIntX.signedHostCase t v
  | .vInt32 v => ToIntX.signedHostCase t v
  | .vInt64 v => ToIntX.signedHostCase t v
  | .vInt v => ToIntX.signedHostCase t v
  | .vUint8 v => ToIntX.unsignedHostCase t v
  | .vUint16 v => ToIntX.unsignedHostCase t v
  | .vUint32 v => ToIntX.unsignedHostCase t v
  | .vUint64 v => ToIntX.unsignedHostCase t v
  | .vUint v => ToIntX.unsignedHostCase t v
  | .vFloat32 q => ToIntX.floatHostCase t q
  | .vFloat64 q => ToIntX.floatHostCase t q
  | .vString s => ToIntX.stringHostCase t s
  | .vBool b => .ok (if b then 1 else 0)
  | _ => .error .unsupported

/-- `ToInt8` (part_009:12). -/
def ToInt8 (value : GoValue) : Except ConvErr Int := ToIntX int8T value

/-- `ToInt16` (part_009:17). -/
def ToInt16 (value : GoValue) : Except ConvErr Int := ToIntX int16T value

/-- `ToInt32` (part_009:22). -/
def ToInt32 (value : GoValue) : Except ConvErr Int := ToIntX int32T value

/-- `ToInt64` (part_009:27). -/
def ToInt64 (value : GoValue) : Except ConvErr Int := ToIntX int64T value

/-- `ToUint8` (part_009:32). -/
def ToUint8 (value : GoValue) : Except ConvErr Int := ToIntX uint8T value

/-- `ToUint16` (part_009:37). -/
def ToUint16 (value : GoValue) : Except ConvErr Int := ToIntX uint16T value

/-- `ToUint32` (part_009:42). -/
def ToUint32 (value : GoValue) : Except ConvErr Int := ToIntX uint32T value

/-- `ToUint64` (part_009:47). -/
def ToUint64 (value : GoValue) : Except ConvErr Int := ToIntX uint64T value

/-- ASCII lower-casing of one byte (`strings.ToLower` on the ASCII inputs
the boolean parser compares against). -/
def asciiLower (b : UInt8) : UInt8 :=
  if 65 ≤ b.toNat ∧ b.toNat ≤ 90 then b + 32 else b

/-- The byte is an ASCII white-space character (`strings.TrimSpace` trims
Unicode space; all comparison targets are ASCII). -/
def isSpaceByte (b : UInt8) : Bool :=
  b = 32 ∨ b = 9 ∨ b = 10 ∨ b = 13 ∨ b = 11 ∨ b = 12

/-- `strings.TrimSpace`: drop leading and trailing white space. -/
def trimSpace (s : GoStr) : GoStr :=
  ((s.dropWhile isSpaceByte).reverse.dropWhile isSpaceByte).reverse

/-- `ToBoolean` (internal/convert/boolean.go).  Note the numeric case of the
source is `case int, int8, int16, int32, int64, uint, uint8, uint16, uint32,
uint64: return v != 0` where `v` has static type `any`: the comparison boxes
the untyped constant `0` as `int(0)`, so it is `false` exactly for a host
value of dynamic type `int` and value `0`; every value of a different
numeric dynamic type compares unequal and yields `true`, including
`int8(0)`, `uint(0)`, `uint8(0)`, etc.  The string case lower-cases, trims,
and compares against "true", "1", "t", "yes", "y". -/
def ToBoolean : GoValue → Except ConvErr Bool
  | .vBool b => .ok b
  | .vInt v => .ok (decide ¬(v = 0))
  | .vInt8 _ => .ok true
  | .vInt16 _ => .ok true
  | .vInt32 _ => .ok true
  | .vInt64 _ => .ok true
  | .vUint _ => .ok true
  | .vUint8 _ => .ok true
  | .vUint16 _ => .ok true
  | .vUint32 _ => .ok true
  | .vUint64 _ => .ok true
  | .vString s =>
    let v := trimSpace (s.map asciiLower)
    .ok (v = [116, 114, 117, 101] ∨ v = [49] ∨ v = [116] ∨
      v = [121, 101, 115] ∨ v = [121])
  | _ => .error .unsupported

/-- Decimal rendering of a natural number, as bytes. -/
def natToBytes (n : Nat) : GoStr :=
  (toString n).data.map fun c => UInt8.ofNat c.toNat

/-- Decimal rendering of an integer, as bytes (`fmt.Sprint` on integers). -/
def intToBytes (v : Int) : GoStr :=
  if v < 0 then 45 :: natToBytes v.natAbs else natToBytes v.natAbs

/-- Abstraction of `fmt`'s floating-point rendering: an exact "num/den"
rendering of the rational.  No theorem depends on this rendering; it only
keeps the VARCHAR/DECIMAL fallback branches total. -/
def ratToBytes (q : ℚ) : GoStr :=
  intToBytes q.num ++ [47] ++ natToBytes q.den

/-- Abstraction of `fmt.Sprint` for the remaining host values reaching
`ToString`'s default case; integers and booleans render exactly as Go does,
the others only need to be total (no theorem depends on them). -/
def goSprint : GoValue → GoStr
  | .vNil => [60, 110, 105, 108, 62]
  | .vBool true => [116, 114, 117, 101]
  | .vBool false => [102, 97, 108, 115, 101]
  | .vInt8 v => intToBytes v
  | .vInt16 v => intToBytes v
  | .vInt32 v => intToBytes v
  | .vInt64 v => intToBytes v
  | .vInt v => intToBytes v
  | .vUint8 v => intToBytes v
  | .vUint16 v => intToBytes v
  | .vUint32 v => intToBytes v
  | .vUint64 v => intToBytes v
  | .vUint v => intToBytes v
  | .vFloat32 q => ratToBytes q
  | .vFloat64 q => ratToBytes q
  | .vString s => s
  | .vBytes bs => bs
  | .vTimeT nanos => intToBytes nanos
  | .vDate days => intToBytes days
  | .vTime micros => intToBytes micros
  | .vJSON s => s
  | .vMap _ => [109, 97, 112]
  | .vList _ => [108, 105, 115, 116]

/-- `ToString` (internal/convert): `string` and `[]byte` pass through,
`fmt.Stringer` values (`types.JSON`) return their `String()`, everything
else goes through `fmt.Sprint`.  No case returns a non-nil error. -/
def ToString : GoValue → Except ConvErr GoStr
  | .vString s => .ok s
  | .vBytes bs => .ok bs
  | .vJSON s => .ok s
  | v => .ok (goSprint v)

/-- The exact value of the `float32` literal `3.14159` appearing in
`ToFloatX`'s special case. -/
def float32Lit314159 : ℚ := (823549 : ℚ) / 262144

/-- The exact value of the `float64` literal `3.14159`. -/
def float64Lit314159 : ℚ := (3537115888337719 : ℚ) / 1125899906842624

/-- Decimal float parsing for `strconv.ParseFloat(v, 64)`: optional sign,
digits, optional fraction, optional decimal exponent, exact rational result.
(Go rounds the result to the nearest `float64`; the model keeps the exact
value.  No theorem depends on this function.) -/
def parseFloatRat (s : GoStr) : Option ℚ :=
  let core : GoStr → Option ℚ := fun u =>
    let expSplit := u.splitOn (101 : UInt8)
    let expSplit := if expSplit.length = 1 then u.splitOn (69 : UInt8) else expSplit
    match expSplit with
    | [mant] =>
      (match mant.splitOn (46 : UInt8) with
       | [ip] => (parseDecDigits ip).map fun n => (n : ℚ)
       | [ip, fp] =>
         if ip.isEmpty ∧ fp.isEmpty then none
         else
           (parseDecDigits (ip ++ fp)).map fun n => (n : ℚ) / (10 : ℚ) ^ fp.length
       | _ => none)
    | [mant, ex] =>
      (match mant.splitOn (46 : UInt8) with
       | [ip] => (parseDecDigits ip).map fun n => (n : ℚ)
       | [ip, fp] =>
         if ip.isEmpty ∧ fp.isEmpty then none
         else
           (parseDecDigits (ip ++ fp)).map fun n => (n : ℚ) / (10 : ℚ) ^ fp.length
       | _ => none).bind fun m =>
        (match ex with
         | 43 :: r => (parseDecDigits r).map fun e => m * (10 : ℚ) ^ e
         | 45 :: r => (parseDecDigits r).map fun e => m / (10 : ℚ) ^ e
         | r => (parseDecDigits r).map fun e => m * (10 : ℚ) ^ e)
    | _ => none
  match s with
  | 43 :: rest => core rest
  | 45 :: rest => (core rest).map Neg.neg
  | _ => core s

/-- The exact value of `math.MaxFloat64`. -/
def maxFloat64 : ℚ := (2 ^ 1024 - 2 ^ 971 : ℚ)

/-- The exact value of `math.SmallestNonzeroFloat64`. -/
def smallestNonzeroFloat64 : ℚ := 1 / (2 ^ 1074 : ℚ)

/-- The exact value of `math.MaxFloat32` (after `float64` widening). -/
def maxFloat32 : ℚ := (2 ^ 128 - 2 ^ 104 : ℚ)

/-- The exact value of `math.SmallestNonzeroFloat32`. -/
def smallestNonzeroFloat32 : ℚ := 1 / (2 ^ 149 : ℚ)

/-- `ToFloatX` (part_007:364): integer hosts convert exactly; the `float32`
case has a hard-coded special case for the literal `3.14159` when the target
is `float64`; the string case parses with `ParseFloat` and range-checks
against `float64(minValue)`/`float64(maxValue)` (note `minValue` is the
*smallest positive* float, so any parsed value below it — including all
non-positive ones — is rejected); `bool` gives 1/0.  Rounding of
`float64`-to-`float32` narrowing is not modelled (exact values are kept); no
theorem depends on a float branch. -/
def ToFloatX (isF64 : Bool) (minValue maxValue : ℚ) (value : GoValue) :
    Except ConvErr ℚ :=
  match value with
  | .vInt8 v => .ok (v : ℚ)
  | .vInt16 v => .ok (v : ℚ)
  | .vInt32 v => .ok (v : ℚ)
  | .vInt64 v => .ok (v : ℚ)
  | .vInt v => .ok (v : ℚ)
  | .vUint8 v => .ok (v : ℚ)
  | .vUint16 v => .ok (v : ℚ)
  | .vUint32 v => .ok (v : ℚ)
  | .vUint64 v => .ok (v : ℚ)
  | .vUint v => .ok (v : ℚ)
  | .vFloat32 q =>
    if isF64 ∧ q = float32Lit314159 then .ok float64Lit314159 else .ok q
  | .vFloat64 q => .ok q
  | .vString s =>
    match parseFloatRat s with
    | none => .error (.parse s)
    | some i =>
      if i < minValue ∨ i > maxValue then .error (.notExact i)
      else .ok i
  | .vBool b => .ok (if b then 1 else 0)
  | _ => .error .unsupported

/-- `ToFloat32` (part_007:354). -/
def ToFloat32 (value : GoValue) : Except ConvErr ℚ :=
  ToFloatX false smallestNonzeroFloat32 maxFloat32 value

/-- `ToFloat64` (part_007:359). -/
def ToFloat64 (value : GoValue) : Except ConvErr ℚ :=
  ToFloatX true smallestNonzeroFloat64 maxFloat64 value

/-! ### Date and time conversions (`internal/convert/datetime.go`)

A `time.Time` instant is modelled by its UTC nanoseconds since the Unix
epoch (`GoValue.vTimeT`); `convert.Date` by its `Days` field and
`convert.Time` by its `Micros` field. -/

def nsPerDay : Int := 86400000000000

/-- One decimal digit byte. -/
def digitVal (b : UInt8) : Option Nat :=
  if 48 ≤ b.toNat ∧ b.toNat ≤ 57 then some (b.toNat - 48) else none

/-- Two-digit zero-padded field of a time layout. -/
def twoDigits (a b : UInt8) : Option Nat :=
  (digitVal a).bind fun x => (digitVal b).map fun y => x * 10 + y

/-- Four-digit year field of a time layout. -/
def fourDigits (a b c d : UInt8) : Option Nat :=
  (twoDigits a b).bind fun x => (twoDigits c d).map fun y => x * 100 + y

/-- Gregorian leap-year test. -/
def isLeapYear (y : Int) : Bool :=
  y.emod 4 = 0 ∧ (y.emod 100 ≠ 0 ∨ y.emod 400 = 0)

/-- Number of days in the month, as `time.Parse` validates it. -/
def daysInMonth (y m : Int) : Int :=
  if m = 2 then (if isLeapYear y then 29 else 28)
  else if m = 4 ∨ m = 6 ∨ m = 9 ∨ m = 11 then 30
  else 31

/-- Days since 1970-01-01 of the civil date `(y, m, d)` (proleptic
Gregorian), the value computed by the source via
`date.Sub(epoch).Hours() / 24` on midnight-truncated UTC dates. -/
def daysFromCivil (y m d : Int) : Int :=
  let y2 := if m ≤ 2 then y - 1 else y
  let era := Int.fdiv y2 400
  let yoe := y2 - era * 400
  let mp := Int.emod (m + 9) 12
  let doy := Int.fdiv (153 * mp + 2) 5 + d - 1
  let doe := yoe * 365 + Int.fdiv yoe 4 - Int.fdiv yoe 100 + doy
  era * 146097 + doe - 719468

/-- `time.Parse("2006-01-02", s)`: a strict `YYYY-MM-DD` with zero-padded
fields and calendar validation, yielding days since the epoch. -/
def parseDate (s : GoStr) : Option Int :=
  match s with
  | [a, b, c, d, 45, e, f, 45, g, h] =>
    (fourDigits a b c d).bind fun y =>
      (twoDigits e f).bind fun mo =>
        (twoDigits g h).bind fun da =>
          if 1 ≤ (mo : Int) ∧ (mo : Int) ≤ 12 ∧ 1 ≤ (da : Int) ∧
              (da : Int) ≤ daysInMonth (y : Int) (mo : Int) then
            some (daysFromCivil (y : Int) (mo : Int) (da : Int))
          else none
  | _ => none

/-- Fractional-second digits to nanoseconds (Go keeps the first nine
digits' worth of precision). -/
def fracNanos (frac : GoStr) : Option Nat :=
  if frac.isEmpty ∨ 9 < frac.length then none
  else (parseDecDigits frac).map fun n => n * 10 ^ (9 - frac.length)

/-- `time.Parse("15:04:05.999999", s)`: a strict zero-padded `HH:MM:SS`
clock with an optional fractional-second part, yielding nanoseconds since
midnight, with clock-field validation. -/
def parseClockNanos (s : GoStr) : Option Int :=
  let fields : GoStr → GoStr → Option Int := fun hms frac =>
    match hms with
    | [h1, h2, 58, m1, m2, 58, s1, s2] =>
      (twoDigits h1 h2).bind fun hh =>
        (twoDigits m1 m2).bind fun mm =>
          (twoDigits s1 s2).bind fun ss =>
            if hh ≤ 23 ∧ mm ≤ 59 ∧ ss ≤ 59 then
              (if frac.isEmpty then some 0 else fracNanos frac).map fun ns =>
                ((hh * 3600 + mm * 60 + ss) * 1000000000 + ns : Int)
            else none
    | _ => none
  match s.splitOn (46 : UInt8) with
  | [hms] => fields hms []
  | [hms, frac] => fields hms frac
  | _ => none

/-- One "date `sep` clock" layout of `ToTimestamp`'s format list, yielding
UTC nanoseconds since the epoch (`time.Parse` with no zone gives UTC). -/
def parseDateTimeNanos (sep : UInt8) (s : GoStr) : Option Int :=
  match s.splitOn sep with
  | [d, c] =>
    (parseDate d).bind fun days =>
      (parseClockNanos c).map fun tod => days * nsPerDay + tod
  | _ => none

/-- `ToDate` (datetime.go): `convert.Date` passes through; `DuckDBDate` is a
type alias of `int32`, so that case matches a host `int32`; a `time.Time` is
truncated to its UTC civil date and counted in days since the epoch; a
string is parsed as `YYYY-MM-DD`.  Result: the `Days` field. -/
def ToDate : GoValue → Except ConvErr Int
  | .vDate d => .ok d
  | .vInt32 v => .ok v
  | .vTimeT nanos => .ok (Int.fdiv nanos nsPerDay)
  | .vString s =>
    match parseDate s with
    | some days => .ok days
    | none => .error (.parse s)
  | _ => .error .unsupported

/-- `ToTime` (datetime.go): `convert.Time` passes through; `DuckDBTime` is a
type alias of `int64`, so that case matches a host `int64`; a `time.Time`'s
UTC clock (hours, minutes, seconds, nanoseconds) is summed into microseconds
since midnight; a string is parsed as `HH:MM:SS.ffffff`.  Result: the
`Micros` field. -/
def ToTime : GoValue → Except ConvErr Int
  | .vTime m => .ok m
  | .vInt64 v => .ok v
  | .vTimeT nanos =>
    let tod := Int.emod nanos nsPerDay
    let hours := Int.fdiv tod 3600000000000
    let minutes := Int.fdiv (Int.emod tod 3600000000000) 60000000000
    let seconds := Int.fdiv (Int.emod tod 60000000000) 1000000000
    let nsec := Int.emod tod 1000000000
    .ok (hours * 3600 * 1000000 + minutes * 60 * 1000000 +
      seconds * 1000000 + Int.fdiv nsec 1000)
  | .vString s =>
    match parseClockNanos s with
    | some tod =>
      let hours := Int.fdiv tod 3600000000000
      let minutes := Int.fdiv (Int.emod tod 3600000000000) 60000000000
      let seconds := Int.fdiv (Int.emod tod 60000000000) 1000000000
      let nsec := Int.emod tod 1000000000
      .ok (hours * 3600 * 1000000 + minutes * 60 * 1000000 +
        seconds * 1000000 + Int.fdiv nsec 1000)
    | none => .error (.parse s)
  | _ => .error .unsupported

/-- `ToTimestamp` (datetime.go): a `time.Time` passes through; a string is
tried against "date space clock", "date T clock" (each with optional
fraction, covering the four date-time layouts of the source's list) and the
date-only layout, in order.  Result: UTC nanoseconds since the epoch. -/
def ToTimestamp : GoValue → Except ConvErr Int
  | .vTimeT nanos => .ok nanos
  | .vString s =>
    (match parseDateTimeNanos 32 s with
     | some n => .ok n
     | none =>
       match parseDateTimeNanos 84 s with
       | some n => .ok n
       | none =>
         match parseDate s with
         | some days => .ok (days * nsPerDay)
         | none => .error (.parse s))
  | _ => .error .unsupported

/-! ### JSON marshaling (`marshalToJSON` in statement.go / conn.go)

`encoding/json.Marshal` on the embedded value domain, followed by
`types.NewJSON(...).String()` which returns the marshalled text unchanged.
`json.Marshal` fails only on Go kinds outside this domain (channels,
functions, non-finite floats), so the model always succeeds.  Map keys are
emitted in the order given (Go sorts map keys; no theorem depends on the
produced text beyond its identity as the varchar payload). -/

mutual

/-- JSON text of one value. -/
def goJSONValue : GoValue → GoStr
  | .vNil => [110, 117, 108, 108]
  | .vBool true => [116, 114, 117, 101]
  | .vBool false => [102, 97, 108, 115, 101]
  | .vInt8 v => intToBytes v
  | .vInt16 v => intToBytes v
  | .vInt32 v => intToBytes v
  | .vInt64 v => intToBytes v
  | .vInt v => intToBytes v
  | .vUint8 v => intToBytes v
  | .vUint16 v => intToBytes v
  | .vUint32 v => intToBytes v
  | .vUint64 v => intToBytes v
  | .vUint v => intToBytes v
  | .vFloat32 q => ratToBytes q
  | .vFloat64 q => ratToBytes q
  | .vString s => 34 :: (s ++ [34])
  | .vBytes bs => 34 :: (bs ++ [34])
  | .vTimeT nanos => intToBytes nanos
  | .vDate days => intToBytes days
  | .vTime micros => intToBytes micros
  | .vJSON s => s
  | .vMap entries => 123 :: (goJSONEntries entries ++ [125])
  | .vList elems => 91 :: (goJSONElems elems ++ [93])

/-- Comma-joined `"key":value` fields of an object. -/
def goJSONEntries : List (GoStr × GoValue) → GoStr
  | [] => []
  | [(k, v)] => 34 :: (k ++ [34, 58]) ++ goJSONValue v
  | (k, v) :: rest =>
    34 :: (k ++ [34, 58]) ++ goJSONValue v ++ [44] ++ goJSONEntries rest

/-- Comma-joined elements of an array. -/
def goJSONElems : List GoValue → GoStr
  | [] => []
  | [v] => goJSONValue v
  | v :: rest => goJSONValue v ++ [44] ++ goJSONElems rest

end

/-- `marshalToJSON` (statement.go:327, conn.go:542). -/
def marshalToJSON (value : GoValue) : Except ConvErr GoStr :=
  .ok (goJSONValue value)

/-! ### Date/time formatting used by the varchar fallbacks -/

/-- Inverse of `daysFromCivil`: the civil date `(y, m, d)` of a day count. -/
def civilFromDays (z0 : Int) : Int × Int × Int :=
  let z := z0 + 719468
  let era := Int.fdiv z 146097
  let doe := z - era * 146097
  let yoe :=
    Int.fdiv (doe - Int.fdiv doe 1460 + Int.fdiv doe 36524 - Int.fdiv doe 146096) 365
  let y := yoe + era * 400
  let doy := doe - (365 * yoe + Int.fdiv yoe 4 - Int.fdiv yoe 100)
  let mp := Int.fdiv (5 * doy + 2) 153
  let d := doy - Int.fdiv (153 * mp + 2) 5 + 1
  let m := mp + (if mp < 10 then 3 else -9)
  (if m ≤ 2 then y + 1 else y, m, d)

/-- Zero-padded decimal of width `w` (clock and calendar fields are
non-negative in every reachable use). -/
def padNum (w : Nat) (v : Int) : GoStr :=
  let ds := natToBytes v.natAbs
  List.replicate (w - ds.length) (48 : UInt8) ++ ds

/-- `Format("2006-01-02")` of the date `days` since the epoch. -/
def formatDate (days : Int) : GoStr :=
  match civilFromDays days with
  | (y, m, d) => padNum 4 y ++ [45] ++ padNum 2 m ++ [45] ++ padNum 2 d

/-- The ".999999" fractional part: empty when the microsecond remainder is
zero, otherwise a dot and the six-digit field with trailing zeros trimmed. -/
def formatFrac6 (micros : Int) : GoStr :=
  if micros = 0 then []
  else 46 :: ((padNum 6 micros).reverse.dropWhile (fun b => b = 48)).reverse

/-- `Format("15:04:05.999999")` of an instant given in nanoseconds. -/
def formatClock (nanos : Int) : GoStr :=
  let tod := Int.emod nanos nsPerDay
  let hh := Int.fdiv tod 3600000000000
  let mm := Int.fdiv (Int.emod tod 3600000000000) 60000000000
  let ss := Int.fdiv (Int.emod tod 60000000000) 1000000000
  let micros := Int.fdiv (Int.emod tod 1000000000) 1000
  padNum 2 hh ++ [58] ++ padNum 2 mm ++ [58] ++ padNum 2 ss ++ formatFrac6 micros

/-- `Format("2006-01-02 15:04:05.999999")` of an instant in nanoseconds. -/
def formatTimestamp (nanos : Int) : GoStr :=
  formatDate (Int.fdiv nanos nsPerDay) ++ [32] ++ formatClock nanos

/-- Abstraction of `fmt.Sprintf("%.15g", v)` for the DECIMAL varchar
fallback; no theorem depends on the rendering. -/
def formatG15 (q : ℚ) : GoStr :=
  ratToBytes q

/-! ## The native function table and bind-call traces -/

/-- One call into a native bind entry point, with its marshalled arguments.
Constructors correspond one-to-one to the `duckdb_bind_*` symbols the binder
can invoke. -/
inductive BindCall where
  | null (idx : Int)
  | boolean (idx : Int) (b : Bool)
  | int8 (idx v : Int)
  | int16 (idx v : Int)
  | int32 (idx v : Int)
  | int64 (idx v : Int)
  | uint8 (idx v : Int)
  | uint16 (idx v : Int)
  | uint32 (idx v : Int)
  | uint64 (idx v : Int)
  | float (idx : Int) (q : ℚ)
  | double (idx : Int) (q : ℚ)
  | varchar (idx : Int) (s : GoStr)
  | blob (idx : Int) (bs : GoStr)
  | date (idx days : Int)
  | time (idx micros : Int)
  | timestamp (idx micros : Int)
  deriving DecidableEq, Repr

/-- The error returns of the binder; each constructor stands for one
`ErrDuckDB`/`fmt.Errorf` site: `closed` for "Prepared statement is closed",
`bindFunctionsUnavailable` for "Bind functions not available", `conv` for
"Failed to convert value to %s: ...", `noSuitable` for "No suitable bind
function available for %s", `notSupported` for "%s type is not supported",
`unsupportedParamType` for "Unsupported parameter type: %s",
`paramTypeUnavailable` for "Parameter type not available", and
`marshalFailed` for "Failed to marshal JSON: ...". -/
inductive BindErr where
  | closed
  | bindFunctionsUnavailable
  | conv (t : DuckDBType) (e : ConvErr)
  | noSuitable (t : DuckDBType)
  | notSupported (t : DuckDBType)
  | unsupportedParamType (t : DuckDBType)
  | paramTypeUnavailable
  | marshalFailed (t : DuckDBType)
  deriving DecidableEq, Repr

/-- The observable outcome of one `BindParameter` invocation: either a
native call was issued and the native library accepted it (`ok`), a native
call was issued and the library rejected it (`nativeFail`, the source's
"Failed to bind parameter of type %s" return), or the binder returned an
error before calling into the library (`err`). -/
inductive BindOutcome where
  | ok (c : BindCall)
  | nativeFail (c : BindCall)
  | err (e : BindErr)
  deriving DecidableEq, Repr

/-- The native call issued by the outcome, if any. -/
def BindOutcome.call? : BindOutcome → Option BindCall
  | .ok c => some c
  | .nativeFail c => some c
  | .err _ => none

/-- The outcome is an error returned before any native call. -/
def BindOutcome.isErr : BindOutcome → Bool
  | .err _ => true
  | _ => false

/-- The resolved function table of `internal/duckdb.DB`, restricted to the
slots the binder, the prepared-statement methods and the result decoder
read.  A nilable bind slot is modelled by its availability; the native
library's reply to an issued bind call is `respond`.  `ParamType` and
`ParameterName` carry the native functions themselves (taking the index the
driver passes); `ClearBindings` and `ExecutePrepared` carry the state the
native call returns when the slot is resolved; `StatementType` is read
without a nil check by the source, so it is total here, taking the
(possibly nil) statement handle. -/
structure DB where
  BindBoolean : Bool
  BindInt8 : Bool
  BindInt16 : Bool
  BindInt32 : Bool
  BindInt64 : Bool
  BindUint8 : Bool
  BindUint16 : Bool
  BindUint32 : Bool
  BindUint64 : Bool
  BindFloat : Bool
  BindDouble : Bool
  BindVarchar : Bool
  BindBlob : Bool
  BindDate : Bool
  BindTime : Bool
  BindTimestamp : Bool
  BindNull : Bool
  respond : BindCall → DuckDBState
  ParamType : Option (Int → DuckDBType)
  ParameterName : Option (Int → Option GoStr)
  ClearBindings : Option DuckDBState
  StatementType : Option Unit → Int
  DestroyPrepared : Bool
  ExecutePrepared : Option DuckDBState
  ResultError : Option GoStr

/-- The shared postlude of every bind branch: issue the call, then
`if state != DuckDBSuccess { return error }`. -/
def DB.issue (db : DB) (c : BindCall) : BindOutcome :=
  if db.respond c = .success then .ok c else .nativeFail c

namespace Duck

/-- `BindParameter` (internal/duckdb/statement.go:19): the type-directed
binder, dispatching on the native parameter type, converting the host value
with the matching `convert` function, and choosing a bind entry point with
the per-type availability fallback chain. -/
def BindParameter (db : DB) (paramIdx : Int) (value : GoValue)
    (paramType : DuckDBType) : BindOutcome :=
  let idx := paramIdx
  match paramType with
  | .boolean =>
    match ToBoolean value with
    | .error e => .err (.conv .boolean e)
    | .ok boolVal =>
      if db.BindBoolean then db.issue (.boolean idx boolVal)
      else if db.BindInt32 then db.issue (.int32 idx (if boolVal then 1 else 0))
      else if db.BindInt64 then db.issue (.int64 idx (if boolVal then 1 else 0))
      else .err (.noSuitable .boolean)
  | .tinyint =>
    match ToInt8 value with
    | .error e => .err (.conv .tinyint e)
    | .ok intVal =>
      if db.BindInt8 then db.issue (.int8 idx intVal)
      else if db.BindInt32 then db.issue (.int32 idx intVal)
      else if db.BindInt64 then db.issue (.int64 idx intVal)
      else .err (.noSuitable .tinyint)
  | .smallint =>
    match ToInt16 value with
    | .error e => .err (.conv .smallint e)
    | .ok intVal =>
      if db.BindInt16 then db.issue (.int16 idx intVal)
      else if db.BindInt32 then db.issue (.int32 idx intVal)
      else if db.BindInt64 then db.issue (.int64 idx intVal)
      else .err (.noSuitable .smallint)
  | .integer =>
    match ToInt32 value with
    | .error e => .err (.conv .integer e)
    | .ok intVal =>
      if db.BindInt32 then db.issue (.int32 idx intVal)
      else if db.BindInt64 then db.issue (.int64 idx intVal)
      else .err (.noSuitable .integer)
  | .bigint =>
    match ToInt64 value with
    | .error e => .err (.conv .bigint e)
    | .ok intVal =>
      if db.BindInt64 then db.issue (.int64 idx intVal)
      else .err (.noSuitable .bigint)
  | .utinyint =>
    match ToUint8 value with
    | .error e => .err (.conv .utinyint e)
    | .ok uintVal =>
      if db.BindUint8 then db.issue (.uint8 idx uintVal)
      else if db.BindInt32 then db.issue (.int32 idx uintVal)
      else if db.BindInt64 then db.issue (.int64 idx uintVal)
      else .err (.noSuitable .utinyint)
  | .usmallint =>
    match ToUint16 value with
    | .error e => .err (.conv .usmallint e)
    | .ok uintVal =>
      if db.BindUint16 then db.issue (.uint16 idx uintVal)
      else if db.BindInt32 ∧ 0 ≤ int32T.wrap uintVal then
        db.issue (.int32 idx (int32T.wrap uintVal))
      else if db.BindInt64 then db.issue (.int64 idx uintVal)
      else .err (.noSuitable .usmallint)
  | .uinteger =>
    match ToUint32 value with
    | .error e => .err (.conv .uinteger e)
    | .ok uintVal =>
      if db.BindUint32 then db.issue (.uint32 idx uintVal)
      else if db.BindInt64 ∧ 0 ≤ wrapToInt64 uintVal then
        db.issue (.int64 idx (wrapToInt64 uintVal))
      else .err (.noSuitable .uinteger)
  | .ubigint =>
    match ToUint64 value with
    | .error e => .err (.conv .ubigint e)
    | .ok uintVal =>
      if db.BindUint64 then db.issue (.uint64 idx uintVal)
      else if db.BindInt64 ∧ uintVal ≤ 2 ^ 63 - 1 then
        db.issue (.int64 idx (wrapToInt64 uintVal))
      else .err (.noSuitable .ubigint)
  | .float =>
    match ToFloat32 value with
    | .error e => .err (.conv .float e)
    | .ok floatVal =>
      if db.BindFloat then db.issue (.float idx floatVal)
      else if db.BindDouble then db.issue (.double idx floatVal)
      else .err (.noSuitable .float)
  | .double =>
    match ToFloat64 value with
    | .error e => .err (.conv .double e)
    | .ok doubleVal =>
      if db.BindDouble then db.issue (.double idx doubleVal)
      else .err (.noSuitable .double)
  | .varchar =>
    match ToString value with
    | .error e => .err (.conv .varchar e)
    | .ok strVal =>
      if db.BindVarchar then db.issue (.varchar idx strVal)
      else .err (.noSuitable .varchar)
  | .blob => .err (.notSupported .blob)
  | .date =>
    match ToDate value with
    | .error e => .err (.conv .date e)
    | .ok dateDays =>
      if db.BindDate then db.issue (.date idx (int32T.wrap dateDays))
      else if db.BindVarchar then db.issue (.varchar idx (formatDate dateDays))
      else .err (.noSuitable .date)
  | .time =>
    match ToTime value with
    | .error e => .err (.conv .time e)
    | .ok timeMicros =>
      if db.BindTime then db.issue (.time idx timeMicros)
      else if db.BindVarchar then
        db.issue (.varchar idx (formatClock (timeMicros * 1000)))
      else .err (.noSuitable .time)
  | .timestamp =>
    match ToTimestamp value with
    | .error e => .err (.conv .timestamp e)
    | .ok tsNanos =>
      if db.BindTimestamp then db.issue (.timestamp idx (Int.tdiv tsNanos 1000))
      else if db.BindVarchar then db.issue (.varchar idx (formatTimestamp tsNanos))
      else .err (.noSuitable .timestamp)
  | .interval => .err (.notSupported .interval)
  | .decimal =>
    match ToFloat64 value with
    | .error e => .err (.conv .decimal e)
    | .ok doubleVal =>
      if db.BindDouble then db.issue (.double idx doubleVal)
      else if db.BindVarchar then db.issue (.varchar idx (formatG15 doubleVal))
      else .err (.noSuitable .decimal)
  | .map =>
    match marshalToJSON value with
    | .error _ => .err (.marshalFailed .map)
    | .ok jsonStr =>
      if db.BindVarchar then db.issue (.varchar idx jsonStr)
      else .err (.noSuitable .map)
  | .list => .err (.notSupported .list)
  | .struct => .err (.notSupported .struct)
  | t => .err (.unsupportedParamType t)

end Duck

/-! ## The result decoder (`internal/duckdb/result.go`)

A `time.Time` result is modelled by its UTC microseconds since the Unix
epoch.  The zero `time.Time{}` returned on the NULL/unavailable paths is
0001-01-01 00:00:00 UTC. -/

/-- `time.Time{}` as microseconds since the Unix epoch. -/
def goTimeZeroMicros : Int := -62135596800000000

/-- The `Result` struct (result.go:8): the raw block plus the function
slots copied from the `DB` table.  Each nilable slot is an `Option` of the
cell-indexed native accessor (the raw-result pointer argument is implicit in
the cell function).  `ValueString` returns the (possibly nil) pointer, whose
payload is the bytes at the pointed-to address; it is read without a nil
check by `GetValueString` and `IsNull`, so it is total here. -/
structure Result where
  ValueString : Int → Int → Option GoStr
  ValueDate : Option (Int → Int → Int)
  ValueTime : Option (Int → Int → Int)
  ValueTimestamp : Option (Int → Int → Int)
  ValueBoolean : Option (Int → Int → Bool)
  ValueInt8 : Option (Int → Int → Int)
  ValueInt16 : Option (Int → Int → Int)
  ValueInt32 : Option (Int → Int → Int)
  ValueInt64 : Option (Int → Int → Int)
  ValueUint8 : Option (Int → Int → Int)
  ValueUint16 : Option (Int → Int → Int)
  ValueUint32 : Option (Int → Int → Int)
  ValueUint64 : Option (Int → Int → Int)
  ValueFloat : Option (Int → Int → ℚ)
  ValueDouble : Option (Int → Int → ℚ)
  ValueNull : Option (Int → Int → Bool)

/-- The `r.ValueNull != nil && r.ValueNull(&r.Raw, column, row)` guard shared
by the numeric/boolean getters. -/
def Result.nullCheck (r : Result) (column row : Int) : Bool :=
  match r.ValueNull with
  | some f => f column row
  | none => false

/-- `GetValueString` (result.go:80): calls the string accessor and treats a
nil pointer as NULL; the NULL accessor is not consulted. -/
def Result.GetValueString (r : Result) (column row : Int) : GoStr × Bool :=
  match r.ValueString column row with
  | none => ([], false)
  | some mem => (GoString (some mem), true)

/-- `GetValueDate` (result.go:89): unavailable slot gives the zero value;
a day count of `0` is treated as NULL (the NULL accessor is not consulted);
otherwise `time.Unix(date*24*60*60, 0).UTC()`. -/
def Result.GetValueDate (r : Result) (column row : Int) : Int × Bool :=
  match r.ValueDate with
  | none => (goTimeZeroMicros, false)
  | some f =>
    let date := f column row
    if date = 0 then (goTimeZeroMicros, false)
    else (date * 24 * 60 * 60 * 1000000, true)

/-- `GetValueTime` (result.go:106): unavailable slot gives the zero value; a
microsecond count of `0` is treated as NULL (the NULL accessor is not
consulted); otherwise midnight of the current date (`time.Now`, passed here
as `midnightMicros`) plus the count. -/
def Result.GetValueTime (r : Result) (midnightMicros : Int) (column row : Int) :
    Int × Bool :=
  match r.ValueTime with
  | none => (goTimeZeroMicros, false)
  | some f =>
    let timeVal := f column row
    if timeVal = 0 then (goTimeZeroMicros, false)
    else (midnightMicros + timeVal, true)

/-- `GetValueTimestamp` (result.go:125): unavailable slot gives the zero
value; a microsecond count of `0` is treated as NULL (the NULL accessor is
not consulted); otherwise `time.Unix(ts/1e6, (ts%1e6)*1000).UTC()` with Go's
truncating division. -/
def Result.GetValueTimestamp (r : Result) (column row : Int) : Int × Bool :=
  match r.ValueTimestamp with
  | none => (goTimeZeroMicros, false)
  | some f =>
    let timestamp := f column row
    if timestamp = 0 then (goTimeZeroMicros, false)
    else
      let seconds := Int.tdiv timestamp 1000000
      let remainingMicros := Int.tmod timestamp 1000000
      (seconds * 1000000 + remainingMicros, true)

/-- `GetValueBoolean` (result.go:144): unavailable slot gives the zero
value; otherwise the NULL accessor is consulted first and a NULL cell gives
`(false, false)`; otherwise the typed accessor's value. -/
def Result.GetValueBoolean (r : Result) (column row : Int) : Bool × Bool :=
  match r.ValueBoolean with
  | none => (false, false)
  | some f =>
    if r.nullCheck column row then (false, false)
    else (f column row, true)

/-- `GetValueInt8` (result.go:159); NULL accessor first, then the typed
accessor. -/
def Result.GetValueInt8 (r : Result) (column row : Int) : Int × Bool :=
  match r.ValueInt8 with
  | none => (0, false)
  | some f =>
    if r.nullCheck column row then (0, false)
    else (f column row, true)

/-- `GetValueInt16` (result.go:174). -/
def Result.GetValueInt16 (r : Result) (column row : Int) : Int × Bool :=
  match r.ValueInt16 with
  | none => (0, false)
  | some f =>
    if r.nullCheck column row then (0, false)
    else (f column row, true)

/-- `GetValueInt32` (result.go:189). -/
def Result.GetValueInt32 (r : Result) (column row : Int) : Int × Bool :=
  match r.ValueInt32 with
  | none => (0, false)
  | some f =>
    if r.nullCheck column row then (0, false)
    else (f column row, true)

/-- `GetValueInt64` (result.go:204). -/
def Result.GetValueInt64 (r : Result) (column row : Int) : Int × Bool :=
  match r.ValueInt64 with
  | none => (0, false)
  | some f =>
    if r.nullCheck column row then (0, false)
    else (f column row, true)

/-- `GetValueUint8` (result.go:219). -/
def Result.GetValueUint8 (r : Result) (column row : Int) : Int × Bool :=
  match r.ValueUint8 with
  | none => (0, false)
  | some f =>
    if r.nullCheck column row then (0, false)
    else (f column row, true)

/-- `GetValueUint16` (result.go:234). -/
def Result.GetValueUint16 (r : Result) (column row : Int) : Int × Bool :=
  match r.ValueUint16 with
  | none => (0, false)
  | some f =>
    if r.nullCheck column row then (0, false)
    else (f column row, true)

/-- `GetValueUint32` (result.go:249). -/
def Result.GetValueUint32 (r : Result) (column row : Int) : Int × Bool :=
  match r.ValueUint32 with
  | none => (0, false)
  | some f =>
    if r.nullCheck column row then (0, false)
    else (f column row, true)

/-- `GetValueUint64` (result.go:264). -/
def Result.GetValueUint64 (r : Result) (column row : Int) : Int × Bool :=
  match r.ValueUint64 with
  | none => (0, false)
  | some f =>
    if r.nullCheck column row then (0, false)
    else (f column row, true)

/-- `GetValueFloat` (result.go:279). -/
def Result.GetValueFloat (r : Result) (column row : Int) : ℚ × Bool :=
  match r.ValueFloat with
  | none => (0, false)
  | some f =>
    if r.nullCheck column row then (0, false)
    else (f column row, true)

/-- `GetValueDouble` (result.go:294). -/
def Result.GetValueDouble (r : Result) (column row : Int) : ℚ × Bool :=
  match r.ValueDouble with
  | none => (0, false)
  | some f =>
    if r.nullCheck column row then (0, false)
    else (f column row, true)

/-- `IsNull` (result.go:309): the dedicated NULL accessor when the slot is
resolved, else the nil-ness of the string accessor's pointer. -/
def Result.IsNull (r : Result) (column row : Int) : Bool :=
  match r.ValueNull with
  | none => (r.ValueString column row).isNone
  | some f => f column row

/-! ## The prepared-statement lifecycle (`conn.go`, `PreparedStatement`) -/

/-- `PreparedStatement` (conn.go:20): the (possibly released) native handle
and the cached parameter count read at prepare time. -/
structure PreparedStatement where
  handle : Option Unit
  numParams : Int
  deriving DecidableEq, Repr

namespace PreparedStatement

/-- `ParameterCount` (conn.go:27): returns the cached count; the signature
has no error return and the handle is not examined. -/
def ParameterCount (ps : PreparedStatement) : Int :=
  ps.numParams

/-- `ParameterName` (conn.go:32): closed-handle check, slot check, then the
native call at the 0-based index `paramIdx - 1`; a nil name pointer gives an
empty name. -/
def ParameterName (db : DB) (ps : PreparedStatement) (paramIdx : Int) :
    Except String GoStr :=
  match ps.handle with
  | none => .error "Prepared statement is closed"
  | some _ =>
    match db.ParameterName with
    | none => .error "Parameter name function not available"
    | some f =>
      let idx := paramIdx - 1
      match f idx with
      | none => .ok []
      | some namePtr => .ok (GoString (some namePtr))

/-- `ParameterType` (conn.go:52): closed-handle check, slot check, then the
native call at the 0-based index `paramIdx - 1`. -/
def ParameterType (db : DB) (ps : PreparedStatement) (paramIdx : Int) :
    Except String DuckDBType :=
  match ps.handle with
  | none => .error "Prepared statement is closed"
  | some _ =>
    match db.ParamType with
    | none => .error "Parameter type function not available"
    | some f =>
      let idx := paramIdx - 1
      .ok (f idx)

/-- `ClearBindings` (conn.go:68): closed-handle check, slot check, then the
native call; a non-success state is an error. -/
def ClearBindings (db : DB) (ps : PreparedStatement) : Except String Unit :=
  match ps.handle with
  | none => .error "Prepared statement is closed"
  | some _ =>
    match db.ClearBindings with
    | none => .error "Clear bindings function not available"
    | some state =>
      if state ≠ .success then .error "Failed to clear bindings"
      else .ok ()

/-- `StatementType` (conn.go:86): no closed-handle check and no slot check —
the native function is invoked with the (possibly nil) handle and its reply
is returned; the error return is always nil. -/
def StatementType (db : DB) (ps : PreparedStatement) : Except String Int :=
  .ok (db.StatementType ps.handle)

/-- `Close` (conn.go:168): a nil handle returns nil immediately; otherwise
the destroy slot is required, the handle is destroyed exactly once and then
set to nil.  The third component records whether the native destroy was
invoked. -/
def Close (db : DB) (ps : PreparedStatement) :
    Except String Unit × PreparedStatement × Bool :=
  match ps.handle with
  | none => (.ok (), ps, false)
  | some _ =>
    if db.DestroyPrepared then (.ok (), { ps with handle := none }, true)
    else (.error "Destroy prepared function not available", ps, false)

/-- The parameter-type lookup block inside `BindParameter` (conn.go:196):
when the `ParamType` slot is resolved, compute the 0-based `idx :=
paramIdx - 1`, and if it is within `[0, numParams)` call the native
`param_type` — with `paramIdx` itself, not `idx`. -/
def paramTypeLookup (db : DB) (ps : PreparedStatement) (paramIdx : Int) :
    DuckDBType :=
  match db.ParamType with
  | none => .invalid
  | some f =>
    let idx := paramIdx - 1
    if 0 ≤ idx ∧ idx < ps.numParams then f paramIdx
    else .invalid

end PreparedStatement

/-- `bindWithDuckDBType` (conn.go:223): the conn-level copy of the
type-directed dispatch.  It differs from the internal
`duckdb.BindParameter` in the DECIMAL case (string rendering through
`convert.ToString` instead of a double bind), in routing MAP, LIST and
STRUCT all through the JSON varchar fallback, and in rejecting unknown
types outright. -/
def bindWithDuckDBType (db : DB) (paramIdx : Int) (value : GoValue)
    (paramType : DuckDBType) : BindOutcome :=
  let idx := paramIdx
  match paramType with
  | .boolean =>
    match ToBoolean value with
    | .error e => .err (.conv .boolean e)
    | .ok boolVal =>
      if db.BindBoolean then db.issue (.boolean idx boolVal)
      else if db.BindInt32 then db.issue (.int32 idx (if boolVal then 1 else 0))
      else if db.BindInt64 then db.issue (.int64 idx (if boolVal then 1 else 0))
      else .err (.noSuitable .boolean)
  | .tinyint =>
    match ToInt8 value with
    | .error e => .err (.conv .tinyint e)
    | .ok intVal =>
      if db.BindInt8 then db.issue (.int8 idx intVal)
      else if db.BindInt32 then db.issue (.int32 idx intVal)
      else if db.BindInt64 then db.issue (.int64 idx intVal)
      else .err (.noSuitable .tinyint)
  | .smallint =>
    match ToInt16 value with
    | .error e => .err (.conv .smallint e)
    | .ok intVal =>
      if db.BindInt16 then db.issue (.int16 idx intVal)
      else if db.BindInt32 then db.issue (.int32 idx intVal)
      else if db.BindInt64 then db.issue (.int64 idx intVal)
      else .err (.noSuitable .smallint)
  | .integer =>
    match ToInt32 value with
    | .error e => .err (.conv .integer e)
    | .ok intVal =>
      if db.BindInt32 then db.issue (.int32 idx intVal)
      else if db.BindInt64 then db.issue (.int64 idx intVal)
      else .err (.noSuitable .integer)
  | .bigint =>
    match ToInt64 value with
    | .error e => .err (.conv .bigint e)
    | .ok intVal =>
      if db.BindInt64 then db.issue (.int64 idx intVal)
      else .err (.noSuitable .bigint)
  | .utinyint =>
    match ToUint8 value with
    | .error e => .err (.conv .utinyint e)
    | .ok uintVal =>
      if db.BindUint8 then db.issue (.uint8 idx uintVal)
      else if db.BindInt32 then db.issue (.int32 idx uintVal)
      else if db.BindInt64 then db.issue (.int64 idx uintVal)
      else .err (.noSuitable .utinyint)
  | .usmallint =>
    match ToUint16 value with
    | .error e => .err (.conv .usmallint e)
    | .ok uintVal =>
      if db.BindUint16 then db.issue (.uint16 idx uintVal)
      else if db.BindInt32 ∧ 0 ≤ int32T.wrap uintVal then
        db.issue (.int32 idx (int32T.wrap uintVal))
      else if db.BindInt64 then db.issue (.int64 idx uintVal)
      else .err (.noSuitable .usmallint)
  | .uinteger =>
    match ToUint32 value with
    | .error e => .err (.conv .uinteger e)
    | .ok uintVal =>
      if db.BindUint32 then db.issue (.uint32 idx uintVal)
      else if db.BindInt64 ∧ 0 ≤ wrapToInt64 uintVal then
        db.issue (.int64 idx (wrapToInt64 uintVal))
      else .err (.noSuitable .uinteger)
  | .ubigint =>
    match ToUint64 value with
    | .error e => .err (.conv .ubigint e)
    | .ok uintVal =>
      if db.BindUint64 then db.issue (.uint64 idx uintVal)
      else if db.BindInt64 ∧ uintVal ≤ 2 ^ 63 - 1 then
        db.issue (.int64 idx (wrapToInt64 uintVal))
      else .err (.noSuitable .ubigint)
  | .float =>
    match ToFloat32 value with
    | .error e => .err (.conv .float e)
    | .ok floatVal =>
      if db.BindFloat then db.issue (.float idx floatVal)
      else if db.BindDouble then db.issue (.double idx floatVal)
      else .err (.noSuitable .float)
  | .double =>
    match ToFloat64 value with
    | .error e => .err (.conv .double e)
    | .ok doubleVal =>
      if db.BindDouble then db.issue (.double idx doubleVal)
      else .err (.noSuitable .double)
  | .varchar =>
    match ToString value with
    | .error e => .err (.conv .varchar e)
    | .ok strVal =>
      if db.BindVarchar then db.issue (.varchar idx strVal)
      else .err (.noSuitable .varchar)
  | .blob => .err (.notSupported .blob)
  | .date =>
    match ToDate value with
    | .error e => .err (.conv .date e)
    | .ok dateDays =>
      if db.BindDate then db.issue (.date idx (int32T.wrap dateDays))
      else if db.BindVarchar then db.issue (.varchar idx (formatDate dateDays))
      else .err (.noSuitable .date)
  | .time =>
    match ToTime value with
    | .error e => .err (.conv .time e)
    | .ok timeMicros =>
      if db.BindTime then db.issue (.time idx timeMicros)
      else if db.BindVarchar then
        db.issue (.varchar idx (formatClock (timeMicros * 1000)))
      else .err (.noSuitable .time)
  | .timestamp =>
    match ToTimestamp value with
    | .error e => .err (.conv .timestamp e)
    | .ok tsNanos =>
      if db.BindTimestamp then db.issue (.timestamp idx (Int.tdiv tsNanos 1000))
      else if db.BindVarchar then db.issue (.varchar idx (formatTimestamp tsNanos))
      else .err (.noSuitable .timestamp)
  | .interval => .err (.notSupported .interval)
  | .decimal =>
    match ToString value with
    | .error e => .err (.conv .decimal e)
    | .ok strVal =>
      if db.BindVarchar then db.issue (.varchar idx strVal)
      else .err (.noSuitable .decimal)
  | .map =>
    match marshalToJSON value with
    | .error _ => .err (.marshalFailed .map)
    | .ok jsonObj =>
      if db.BindVarchar then db.issue (.varchar idx jsonObj)
      else .err (.noSuitable .map)
  | .list =>
    match marshalToJSON value with
    | .error _ => .err (.marshalFailed .list)
    | .ok jsonObj =>
      if db.BindVarchar then db.issue (.varchar idx jsonObj)
      else .err (.noSuitable .list)
  | .struct =>
    match marshalToJSON value with
    | .error _ => .err (.marshalFailed .struct)
    | .ok jsonObj =>
      if db.BindVarchar then db.issue (.varchar idx jsonObj)
      else .err (.noSuitable .struct)
  | t => .err (.unsupportedParamType t)

namespace PreparedStatement

/-- `BindParameter` (conn.go:185): closed-handle check, required null-bind
slot check, the parameter-type lookup, the type-independent nil/NULL path,
then dispatch through `bindWithDuckDBType`; when the lookup yields no type,
the bind fails with "Parameter type not available". -/
def BindParameter (db : DB) (ps : PreparedStatement) (paramIdx : Int)
    (value : GoValue) : BindOutcome :=
  match ps.handle with
  | none => .err .closed
  | some _ =>
    if ¬db.BindNull then .err .bindFunctionsUnavailable
    else
      let paramType := paramTypeLookup db ps paramIdx
      match value with
      | .vNil => db.issue (.null paramIdx)
      | v =>
        if paramType ≠ .invalid then bindWithDuckDBType db paramIdx v paramType
        else .err .paramTypeUnavailable

/-- `Execute` (conn.go:513): closed-handle check, slot check, the native
call; a failing state reports the result error text when that slot is
resolved. -/
def Execute (db : DB) (ps : PreparedStatement) : Except String Unit :=
  match ps.handle with
  | none => .error "Prepared statement is closed"
  | some _ =>
    match db.ExecutePrepared with
    | none => .error "Execute prepared function not available"
    | some state =>
      if state ≠ .success then .error "Failed to execute prepared statement"
      else .ok ()

end PreparedStatement

/-! ## Helper lemmas: the `ToIntX` host/target case analysis -/

/-- Success of an integer conversion. -/
def convOk : Except ConvErr Int → Bool
  | .ok _ => true
  | .error _ => false

theorem signedHostCase_int8_ok (x w : Int) :
    ToIntX.signedHostCase int8T x = .ok w ↔ -128 ≤ x ∧ x ≤ 127 ∧ w = x := by
  have hmin : wrapToInt64 (IntType.minVal int8T) = -128 := by decide
  have hmax : wrapToInt64 (IntType.maxVal int8T) = 127 := by decide
  have hw : ∀ y : Int, IntType.wrap int8T y = (y + 128) % 256 - 128 := fun _ => rfl
  rw [ToIntX.signedHostCase, hmin, hmax]
  split_ifs with h
  · rw [false_iff]
    rcases h with h | h <;> omega
  · push_neg at h
    obtain ⟨h1, h2⟩ := h
    rw [hw, Except.ok.injEq]
    omega

theorem signedHostCase_int16_ok (x w : Int) :
    ToIntX.signedHostCase int16T x = .ok w ↔ -32768 ≤ x ∧ x ≤ 32767 ∧ w = x := by
  have hmin : wrapToInt64 (IntType.minVal int16T) = -32768 := by decide
  have hmax : wrapToInt64 (IntType.maxVal int16T) = 32767 := by decide
  have hw : ∀ y : Int, IntType.wrap int16T y = (y + 32768) % 65536 - 32768 :=
    fun _ => rfl
  rw [ToIntX.signedHostCase, hmin, hmax]
  split_ifs with h
  · rw [false_iff]
    rcases h with h | h <;> omega
  · push_neg at h
    obtain ⟨h1, h2⟩ := h
    rw [hw, Except.ok.injEq]
    omega

theorem signedHostCase_int32_ok (x w : Int) :
    ToIntX.signedHostCase int32T x = .ok w ↔
      -2147483648 ≤ x ∧ x ≤ 2147483647 ∧ w = x := by
  have hmin : wrapToInt64 (IntType.minVal int32T) = -2147483648 := by decide
  have hmax : wrapToInt64 (IntType.maxVal int32T) = 2147483647 := by decide
  have hw : ∀ y : Int,
      IntType.wrap int32T y = (y + 2147483648) % 4294967296 - 2147483648 :=
    fun _ => rfl
  rw [ToIntX.signedHostCase, hmin, hmax]
  split_ifs with h
  · rw [false_iff]
    rcases h with h | h <;> omega
  · push_neg at h
    obtain ⟨h1, h2⟩ := h
    rw [hw, Except.ok.injEq]
    omega

theorem signedHostCase_int64_ok (x w : Int) :
    ToIntX.signedHostCase int64T x = .ok w ↔
      -9223372036854775808 ≤ x ∧ x ≤ 9223372036854775807 ∧ w = x := by
  have hmin : wrapToInt64 (IntType.minVal int64T) = -9223372036854775808 := by decide
  have hmax : wrapToInt64 (IntType.maxVal int64T) = 9223372036854775807 := by decide
  have hw : ∀ y : Int,
      IntType.wrap int64T y =
        (y + 9223372036854775808) % 18446744073709551616 - 9223372036854775808 :=
    fun _ => rfl
  rw [ToIntX.signedHostCase, hmin, hmax]
  split_ifs with h
  · rw [false_iff]
    rcases h with h | h <;> omega
  · push_neg at h
    obtain ⟨h1, h2⟩ := h
    rw [hw, Except.ok.injEq]
    omega

theorem signedHostCase_uint8_ok (x w : Int) :
    ToIntX.signedHostCase uint8T x = .ok w ↔ 0 ≤ x ∧ x ≤ 255 ∧ w = x := by
  have hmin : wrapToInt64 (IntType.minVal uint8T) = 0 := by decide
  have hmax : wrapToInt64 (IntType.maxVal uint8T) = 255 := by decide
  have hw : ∀ y : Int, IntType.wrap uint8T y = y % 256 := fun _ => rfl
  rw [ToIntX.signedHostCase, hmin, hmax]
  split_ifs with h
  · rw [false_iff]
    rcases h with h | h <;> omega
  · push_neg at h
    obtain ⟨h1, h2⟩ := h
    rw [hw, Except.ok.injEq]
    omega

theorem signedHostCase_uint16_ok (x w : Int) :
    ToIntX.signedHostCase uint16T x = .ok w ↔ 0 ≤ x ∧ x ≤ 65535 ∧ w = x := by
  have hmin : wrapToInt64 (IntType.minVal uint16T) = 0 := by decide
  have hmax : wrapToInt64 (IntType.maxVal uint16T) = 65535 := by decide
  have hw : ∀ y : Int, IntType.wrap uint16T y = y % 65536 := fun _ => rfl
  rw [ToIntX.signedHostCase, hmin, hmax]
  split_ifs with h
  · rw [false_iff]
    rcases h with h | h <;> omega
  · push_neg at h
    obtain ⟨h1, h2⟩ := h
    rw [hw, Except.ok.injEq]
    omega

theorem signedHostCase_uint32_ok (x w : Int) :
    ToIntX.signedHostCase uint32T x = .ok w ↔ 0 ≤ x ∧ x ≤ 4294967295 ∧ w = x := by
  have hmin : wrapToInt64 (IntType.minVal uint32T) = 0 := by decide
  have hmax : wrapToInt64 (IntType.maxVal uint32T) = 4294967295 := by decide
  have hw : ∀ y : Int, IntType.wrap uint32T y = y % 4294967296 := fun _ => rfl
  rw [ToIntX.signedHostCase, hmin, hmax]
  split_ifs with h
  · rw [false_iff]
    rcases h with h | h <;> omega
  · push_neg at h
    obtain ⟨h1, h2⟩ := h
    rw [hw, Except.ok.injEq]
    omega

theorem signedHostCase_uint64_ok (x w : Int) :
    ToIntX.signedHostCase uint64T x = .ok w ↔ False := by
  have hmin : wrapToInt64 (IntType.minVal uint64T) = 0 := by decide
  have hmax : wrapToInt64 (IntType.maxVal uint64T) = -1 := by decide
  rw [ToIntX.signedHostCase, hmin, hmax]
  split_ifs with h
  · rfl
  · push_neg at h
    obtain ⟨h1, h2⟩ := h
    exfalso
    omega

theorem unsignedHostCase_uint8_ok (x w : Int) :
    ToIntX.unsignedHostCase uint8T x = .ok w ↔ 0 ≤ x ∧ x ≤ 255 ∧ w = x := by
  have hmin : wrapToUint64 (IntType.minVal uint8T) = 0 := by decide
  have hmax : wrapToUint64 (IntType.maxVal uint8T) = 255 := by decide
  have hw : ∀ y : Int, IntType.wrap uint8T y = y % 256 := fun _ => rfl
  rw [ToIntX.unsignedHostCase, hmin, hmax]
  split_ifs with h
  · rw [false_iff]
    rcases h with h | h <;> omega
  · push_neg at h
    obtain ⟨h1, h2⟩ := h
    rw [hw, Except.ok.injEq]
    omega

theorem unsignedHostCase_uint16_ok (x w : Int) :
    ToIntX.unsignedHostCase uint16T x = .ok w ↔ 0 ≤ x ∧ x ≤ 65535 ∧ w = x := by
  have hmin : wrapToUint64 (IntType.minVal uint16T) = 0 := by decide
  have hmax : wrapToUint64 (IntType.maxVal uint16T) = 65535 := by decide
  have hw : ∀ y : Int, IntType.wrap uint16T y = y % 65536 := fun _ => rfl
  rw [ToIntX.unsignedHostCase, hmin, hmax]
  split_ifs with h
  · rw [false_iff]
    rcases h with h | h <;> omega
  · push_neg at h
    obtain ⟨h1, h2⟩ := h
    rw [hw, Except.ok.injEq]
    omega

theorem unsignedHostCase_uint32_ok (x w : Int) :
    ToIntX.unsignedHostCase uint32T x = .ok w ↔ 0 ≤ x ∧ x ≤ 4294967295 ∧ w = x := by
  have hmin : wrapToUint64 (IntType.minVal uint32T) = 0 := by decide
  have hmax : wrapToUint64 (IntType.maxVal uint32T) = 4294967295 := by decide
  have hw : ∀ y : Int, IntType.wrap uint32T y = y % 4294967296 := fun _ => rfl
  rw [ToIntX.unsignedHostCase, hmin, hmax]
  split_ifs with h
  · rw [false_iff]
    rcases h with h | h <;> omega
  · push_neg at h
    obtain ⟨h1, h2⟩ := h
    rw [hw, Except.ok.injEq]
    omega

theorem unsignedHostCase_uint64_ok (x w : Int) :
    ToIntX.unsignedHostCase uint64T x = .ok w ↔
      0 ≤ x ∧ x ≤ 18446744073709551615 ∧ w = x := by
  have hmin : wrapToUint64 (IntType.minVal uint64T) = 0 := by decide
  have hmax : wrapToUint64 (IntType.maxVal uint64T) = 18446744073709551615 := by decide
  have hw : ∀ y : Int, IntType.wrap uint64T y = y % 18446744073709551616 :=
    fun _ => rfl
  rw [ToIntX.unsignedHostCase, hmin, hmax]
  split_ifs with h
  · rw [false_iff]
    rcases h with h | h <;> omega
  · push_neg at h
    obtain ⟨h1, h2⟩ := h
    rw [hw, Except.ok.injEq]
    omega

theorem unsignedHostCase_int8_ok (x w : Int) :
    ToIntX.unsignedHostCase int8T x = .ok w ↔ False := by
  have hmin : wrapToUint64 (IntType.minVal int8T) = 18446744073709551488 := by decide
  have hmax : wrapToUint64 (IntType.maxVal int8T) = 127 := by decide
  rw [ToIntX.unsignedHostCase, hmin, hmax]
  split_ifs with h
  · rfl
  · push_neg at h
    obtain ⟨h1, h2⟩ := h
    exfalso
    omega

theorem unsignedHostCase_int16_ok (x w : Int) :
    ToIntX.unsignedHostCase int16T x = .ok w ↔ False := by
  have hmin : wrapToUint64 (IntType.minVal int16T) = 18446744073709518848 := by decide
  have hmax : wrapToUint64 (IntType.maxVal int16T) = 32767 := by decide
  rw [ToIntX.unsignedHostCase, hmin, hmax]
  split_ifs with h
  · rfl
  · push_neg at h
    obtain ⟨h1, h2⟩ := h
    exfalso
    omega

theorem unsignedHostCase_int32_ok (x w : Int) :
    ToIntX.unsignedHostCase int32T x = .ok w ↔ False := by
  have hmin : wrapToUint64 (IntType.minVal int32T) = 18446744071562067968 := by decide
  have hmax : wrapToUint64 (IntType.maxVal int32T) = 2147483647 := by decide
  rw [ToIntX.unsignedHostCase, hmin, hmax]
  split_ifs with h
  · rfl
  · push_neg at h
    obtain ⟨h1, h2⟩ := h
    exfalso
    omega

theorem unsignedHostCase_int64_ok (x w : Int) :
    ToIntX.unsignedHostCase int64T x = .ok w ↔ False := by
  have hmin : wrapToUint64 (IntType.minVal int64T) = 9223372036854775808 := by decide
  have hmax : wrapToUint64 (IntType.maxVal int64T) = 9223372036854775807 := by decide
  rw [ToIntX.unsignedHostCase, hmin, hmax]
  split_ifs with h
  · rfl
  · push_neg at h
    obtain ⟨h1, h2⟩ := h
    exfalso
    omega

/-- The eight integer target types of the Go source (the instantiations of
`ToIntX`). -/
inductive IntTarget where
  | i8
  | i16
  | i32
  | i64
  | u8
  | u16
  | u32
  | u64
  deriving DecidableEq, Repr

/-- The `IntType` of each target. -/
def IntTarget.ty : IntTarget → IntType
  | .i8 => int8T
  | .i16 => int16T
  | .i32 => int32T
  | .i64 => int64T
  | .u8 => uint8T
  | .u16 => uint16T
  | .u32 => uint32T
  | .u64 => uint64T

theorem int8T_minVal : int8T.minVal = -128 := by decide

theorem int8T_maxVal : int8T.maxVal = 127 := by decide

theorem int16T_minVal : int16T.minVal = -32768 := by decide

theorem int16T_maxVal : int16T.maxVal = 32767 := by decide

theorem int32T_minVal : int32T.minVal = -2147483648 := by decide

theorem int32T_maxVal : int32T.maxVal = 2147483647 := by decide

theorem int64T_minVal : int64T.minVal = -9223372036854775808 := by decide

theorem int64T_maxVal : int64T.maxVal = 9223372036854775807 := by decide

theorem uint8T_minVal : uint8T.minVal = 0 := by decide

theorem uint8T_maxVal : uint8T.maxVal = 255 := by decide

theorem uint16T_minVal : uint16T.minVal = 0 := by decide

theorem uint16T_maxVal : uint16T.maxVal = 65535 := by decide

theorem uint32T_minVal : uint32T.minVal = 0 := by decide

theorem uint32T_maxVal : uint32T.maxVal = 4294967295 := by decide

theorem uint64T_minVal : uint64T.minVal = 0 := by decide

theorem uint64T_maxVal : uint64T.maxVal = 18446744073709551615 := by decide

/-- A successful `ToIntX` conversion of an integer host value returns that
value unchanged, for every target type. -/
theorem toIntX_ok_preserves (tg : IntTarget) (v : GoValue) (x w : Int)
    (hx : v.intVal? = some x) (hok : ToIntX tg.ty v = .ok w) : w = x := by
  cases v <;>
    simp only [GoValue.intVal?, Option.some.injEq, reduceCtorEq] at hx <;>
    subst hx <;>
    cases tg <;>
    simp only [IntTarget.ty, ToIntX,
      signedHostCase_int8_ok, signedHostCase_int16_ok, signedHostCase_int32_ok,
      signedHostCase_int64_ok, signedHostCase_uint8_ok, signedHostCase_uint16_ok,
      signedHostCase_uint32_ok, signedHostCase_uint64_ok,
      unsignedHostCase_int8_ok, unsignedHostCase_int16_ok,
      unsignedHostCase_int32_ok, unsignedHostCase_int64_ok,
      unsignedHostCase_uint8_ok, unsignedHostCase_uint16_ok,
      unsignedHostCase_uint32_ok, unsignedHostCase_uint64_ok] at hok <;>
    omega

/-- An integer host value outside the target range never converts
successfully (it is rejected, not truncated). -/
theorem toIntX_out_of_range_fails (tg : IntTarget) (v : GoValue) (x : Int)
    (hx : v.intVal? = some x)
    (hout : x < tg.ty.minVal ∨ tg.ty.maxVal < x) :
    convOk (ToIntX tg.ty v) = false := by
  cases hres : ToIntX tg.ty v with
  | error e => rfl
  | ok w =>
    exfalso
    have hw := toIntX_ok_preserves tg v x w hx hres
    subst hw
    cases v <;>
      simp only [GoValue.intVal?, Option.some.injEq, reduceCtorEq] at hx <;>
      subst hx <;>
      cases tg <;>
      simp only [IntTarget.ty, ToIntX,
        signedHostCase_int8_ok, signedHostCase_int16_ok, signedHostCase_int32_ok,
        signedHostCase_int64_ok, signedHostCase_uint8_ok, signedHostCase_uint16_ok,
        signedHostCase_uint32_ok, signedHostCase_uint64_ok,
        unsignedHostCase_int8_ok, unsignedHostCase_int16_ok,
        unsignedHostCase_int32_ok, unsignedHostCase_int64_ok,
        unsignedHostCase_uint8_ok, unsignedHostCase_uint16_ok,
        unsignedHostCase_uint32_ok, unsignedHostCase_uint64_ok] at hres <;>
      simp only [IntTarget.ty, int8T_minVal, int8T_maxVal, int16T_minVal,
        int16T_maxVal, int32T_minVal, int32T_maxVal, int64T_minVal, int64T_maxVal,
        uint8T_minVal, uint8T_maxVal, uint16T_minVal, uint16T_maxVal,
        uint32T_minVal, uint32T_maxVal, uint64T_minVal, uint64T_maxVal] at hout <;>
      rcases hout with hout | hout <;>
      omega

/-- A signed-type host value inside the target range converts successfully
(with the identical value) for every target other than `uint64`. -/
theorem toIntX_signed_in_range_ok (tg : IntTarget) (v : GoValue) (x : Int)
    (hs : v.signedIntHost) (hx : v.intVal? = some x) (hne : tg ≠ .u64)
    (h1 : tg.ty.minVal ≤ x) (h2 : x ≤ tg.ty.maxVal) :
    ToIntX tg.ty v = .ok x := by
  cases v <;> simp only [GoValue.signedIntHost] at hs <;>
    simp only [GoValue.intVal?, Option.some.injEq] at hx <;>
    subst hx <;>
    cases tg <;>
    simp only [IntTarget.ty, int8T_minVal, int8T_maxVal, int16T_minVal,
      int16T_maxVal, int32T_minVal, int32T_maxVal, int64T_minVal, int64T_maxVal,
      uint8T_minVal, uint8T_maxVal, uint16T_minVal, uint16T_maxVal,
      uint32T_minVal, uint32T_maxVal, uint64T_minVal, uint64T_maxVal] at h1 h2 <;>
    first
      | exact absurd rfl hne
      | exact (signedHostCase_int8_ok _ _).mpr ⟨h1, h2, rfl⟩
      | exact (signedHostCase_int16_ok _ _).mpr ⟨h1, h2, rfl⟩
      | exact (signedHostCase_int32_ok _ _).mpr ⟨h1, h2, rfl⟩
      | exact (signedHostCase_int64_ok _ _).mpr ⟨h1, h2, rfl⟩
      | exact (signedHostCase_uint8_ok _ _).mpr ⟨h1, h2, rfl⟩
      | exact (signedHostCase_uint16_ok _ _).mpr ⟨h1, h2, rfl⟩
      | exact (signedHostCase_uint32_ok _ _).mpr ⟨h1, h2, rfl⟩

/-- An unsigned-type host value inside the target range converts
successfully (with the identical value) for every unsigned target. -/
theorem toIntX_unsigned_in_range_ok (tg : IntTarget) (v : GoValue) (x : Int)
    (hu : v.unsignedIntHost) (hx : v.intVal? = some x)
    (hsgn : tg.ty.signed = false)
    (h1 : tg.ty.minVal ≤ x) (h2 : x ≤ tg.ty.maxVal) :
    ToIntX tg.ty v = .ok x := by
  cases v <;> simp only [GoValue.unsignedIntHost] at hu <;>
    simp only [GoValue.intVal?, Option.some.injEq] at hx <;>
    subst hx <;>
    cases tg <;>
    simp only [IntTarget.ty, int8T_minVal, int8T_maxVal, int16T_minVal,
      int16T_maxVal, int32T_minVal, int32T_maxVal, int64T_minVal, int64T_maxVal,
      uint8T_minVal, uint8T_maxVal, uint16T_minVal, uint16T_maxVal,
      uint32T_minVal, uint32T_maxVal, uint64T_minVal, uint64T_maxVal] at h1 h2 <;>
    first
      | exact absurd hsgn (by decide)
      | exact (unsignedHostCase_uint8_ok _ _).mpr ⟨h1, h2, rfl⟩
      | exact (unsignedHostCase_uint16_ok _ _).mpr ⟨h1, h2, rfl⟩
      | exact (unsignedHostCase_uint32_ok _ _).mpr ⟨h1, h2, rfl⟩
      | exact (unsignedHostCase_uint64_ok _ _).mpr ⟨h1, h2, rfl⟩

/-- Every signed-type host value is rejected by a `uint64` conversion, even
when it is inside the target's range. -/
theorem toIntX_signed_to_uint64_fails (v : GoValue) (hs : v.signedIntHost) :
    convOk (ToIntX uint64T v) = false := by
  cases v <;> simp only [GoValue.signedIntHost] at hs <;>
    (cases hres : ToIntX uint64T _ with
     | error e => rfl
     | ok w =>
       exfalso
       simp only [ToIntX, signedHostCase_uint64_ok] at hres)

/-- Every unsigned-type host value is rejected by a conversion to a signed
target, even when it is inside the target's range. -/
theorem toIntX_unsigned_to_signed_fails (tg : IntTarget) (v : GoValue)
    (hu : v.unsignedIntHost) (hsgn : tg.ty.signed = true) :
    convOk (ToIntX tg.ty v) = false := by
  cases v <;> simp only [GoValue.unsignedIntHost] at hu <;>
    cases tg <;>
    first
      | exact absurd hsgn (by decide)
      | (cases hres : ToIntX _ _ with
         | error e => rfl
         | ok w =>
           exfalso
           simp only [IntTarget.ty, ToIntX,
             unsignedHostCase_int8_ok, unsignedHostCase_int16_ok,
             unsignedHostCase_int32_ok, unsignedHostCase_int64_ok] at hres)

/-- A successful float conversion returns exactly the float's rational
value (no truncation). -/
theorem floatHostCase_ok_exact (t : IntType) (q : ℚ) (w : Int)
    (hok : ToIntX.floatHostCase t q = .ok w) : (w : ℚ) = q := by
  unfold ToIntX.floatHostCase at hok
  split_ifs at hok with h
  push_neg at h
  obtain ⟨-, -, h3⟩ := h
  injection hok with hw
  rw [← hw]
  exact h3

/-- A float with a fractional part is always rejected. -/
theorem floatHostCase_fractional_fails (t : IntType) (q : ℚ) (hden : q.den ≠ 1) :
    convOk (ToIntX.floatHostCase t q) = false := by
  unfold ToIntX.floatHostCase
  split_ifs with h
  · rfl
  · push_neg at h
    obtain ⟨-, -, h3⟩ := h
    exfalso
    apply hden
    rw [← h3]
    exact Rat.den_intCast _

/-! ## Helper lemmas: the C-string bridge -/

theorem goString_toCString (s : GoStr) :
    GoString (some (ToCString s)) = s.takeWhile (fun b => b ≠ 0) := by
  simp only [GoString, GoBytes, ToCString]
  induction s with
  | nil => rfl
  | cons a t ih =>
    by_cases h : a = 0
    · subst h
      simp [List.takeWhile_cons]
    · simpa [List.takeWhile_cons, h] using ih

theorem takeWhile_eq_self_of_no_zero (s : GoStr) (h : (0 : UInt8) ∉ s) :
    s.takeWhile (fun b => b ≠ 0) = s := by
  induction s with
  | nil => rfl
  | cons a t ih =>
    simp only [List.mem_cons, not_or] at h
    have ha : a ≠ 0 := fun e => h.1 e.symm
    rw [List.takeWhile_cons, if_pos (by simpa using ha), ih h.2]

/-! ## Concrete fixtures for the claim evaluations -/

/-- A fully populated native function table whose native calls all succeed;
`param_type` answers INTEGER everywhere, `statement_type` answers `7`. -/
def lifecycleDB : DB where
  BindBoolean := true
  BindInt8 := true
  BindInt16 := true
  BindInt32 := true
  BindInt64 := true
  BindUint8 := true
  BindUint16 := true
  BindUint32 := true
  BindUint64 := true
  BindFloat := true
  BindDouble := true
  BindVarchar := true
  BindBlob := true
  BindDate := true
  BindTime := true
  BindTimestamp := true
  BindNull := true
  respond := fun _ => .success
  ParamType := some fun _ => .integer
  ParameterName := some fun _ => none
  ClearBindings := some .success
  StatementType := fun _ => 7
  DestroyPrepared := true
  ExecutePrepared := some .success
  ResultError := none

/-- An open prepared statement with 3 parameters. -/
def openPS : PreparedStatement := ⟨some (), 3⟩

/-- The same statement after its handle was released. -/
def closedPS : PreparedStatement := ⟨none, 3⟩

/-- An open prepared statement with exactly one parameter. -/
def oneParamPS : PreparedStatement := ⟨some (), 1⟩

/-- A result whose every function slot is unresolved (and whose string
accessor returns a nil pointer). -/
def emptyResult : Result where
  ValueString := fun _ _ => none
  ValueDate := none
  ValueTime := none
  ValueTimestamp := none
  ValueBoolean := none
  ValueInt8 := none
  ValueInt16 := none
  ValueInt32 := none
  ValueInt64 := none
  ValueUint8 := none
  ValueUint16 := none
  ValueUint32 := none
  ValueUint64 := none
  ValueFloat := none
  ValueDouble := none
  ValueNull := none

/-- A result whose NULL accessor reports every cell non-NULL while every
typed accessor returns the zero encoding of its type (day offset 0 =
1970-01-01, microsecond offset 0 = 00:00:00 / the epoch) and the string
accessor returns a non-nil pointer to an empty C string. -/
def zeroCellResult : Result where
  ValueString := fun _ _ => some [0]
  ValueDate := some fun _ _ => 0
  ValueTime := some fun _ _ => 0
  ValueTimestamp := some fun _ _ => 0
  ValueBoolean := some fun _ _ => false
  ValueInt8 := some fun _ _ => 0
  ValueInt16 := some fun _ _ => 0
  ValueInt32 := some fun _ _ => 0
  ValueInt64 := some fun _ _ => 0
  ValueUint8 := some fun _ _ => 0
  ValueUint16 := some fun _ _ => 0
  ValueUint32 := some fun _ _ => 0
  ValueUint64 := some fun _ _ => 0
  ValueFloat := some fun _ _ => 0
  ValueDouble := some fun _ _ => 0
  ValueNull := some fun _ _ => false

/-- A result whose dedicated NULL accessor reports every cell NULL while the
string accessor returns a non-nil pointer to an empty C string. -/
def mismatchResult : Result where
  ValueString := fun _ _ => some [0]
  ValueDate := none
  ValueTime := none
  ValueTimestamp := none
  ValueBoolean := none
  ValueInt8 := none
  ValueInt16 := none
  ValueInt32 := none
  ValueInt64 := none
  ValueUint8 := none
  ValueUint16 := none
  ValueUint32 := none
  ValueUint64 := none
  ValueFloat := none
  ValueDouble := none
  ValueNull := some fun _ _ => true

/-! ## Claim theorems -/

/-- **C8.** The C-string bridge: `fromNative` (`GoString`) of a null pointer
is the empty string; `toNative` (`ToCString`) of `s` yields a buffer of
length `len(s)+1` whose last byte is zero; for every host string without a
zero byte the round-trip `fromNative(toNative(s))` is `s` itself; and in
general the round-trip returns the prefix of `s` up to the first zero byte
(the byte-scan-until-first-zero contract). -/
theorem c8_cstring_bridge_roundtrip :
    GoString none = [] ∧
    (∀ s : GoStr, (ToCString s).length = s.length + 1 ∧
      (ToCString s).getLast? = some 0) ∧
    (∀ s : GoStr, (0 : UInt8) ∉ s → GoString (some (ToCString s)) = s) ∧
    (∀ s : GoStr,
      GoString (some (ToCString s)) = s.takeWhile (fun b => b ≠ 0)) := by
  refine ⟨rfl, fun s => ⟨by simp [ToCString], by simp [ToCString]⟩,
    fun s h => ?_, goString_toCString⟩
  rw [goString_toCString, takeWhile_eq_self_of_no_zero s h]

/-- Witness for C8: a concrete round-trip through the bridge. -/
theorem c8_cstring_bridge_roundtrip_witness :
    GoString (some (ToCString [104, 105])) = [104, 105] :=
  c8_cstring_bridge_roundtrip.2.2.1 [104, 105] (by decide)

/-- **C10.** Every typed value getter of the result decoder is total when
its native function slot is unresolved: it returns the zero value of its Go
result type together with `false`, without touching the unset slot (dates,
times and timestamps return the zero `time.Time`). -/
theorem c10_typed_getters_total_without_slot :
    ∀ (r : Result) (column row midnightMicros : Int),
      (r.ValueDate = none → r.GetValueDate column row = (goTimeZeroMicros, false)) ∧
      (r.ValueTime = none →
        r.GetValueTime midnightMicros column row = (goTimeZeroMicros, false)) ∧
      (r.ValueTimestamp = none →
        r.GetValueTimestamp column row = (goTimeZeroMicros, false)) ∧
      (r.ValueBoolean = none → r.GetValueBoolean column row = (false, false)) ∧
      (r.ValueInt8 = none → r.GetValueInt8 column row = (0, false)) ∧
      (r.ValueInt16 = none → r.GetValueInt16 column row = (0, false)) ∧
      (r.ValueInt32 = none → r.GetValueInt32 column row = (0, false)) ∧
      (r.ValueInt64 = none → r.GetValueInt64 column row = (0, false)) ∧
      (r.ValueUint8 = none → r.GetValueUint8 column row = (0, false)) ∧
      (r.ValueUint16 = none → r.GetValueUint16 column row = (0, false)) ∧
      (r.ValueUint32 = none → r.GetValueUint32 column row = (0, false)) ∧
      (r.ValueUint64 = none → r.GetValueUint64 column row = (0, false)) ∧
      (r.ValueFloat = none → r.GetValueFloat column row = (0, false)) ∧
      (r.ValueDouble = none → r.GetValueDouble column row = (0, false)) := by
  intro r column row midnightMicros
  refine ⟨?_, ?_, ?_, ?_, ?_, ?_, ?_, ?_, ?_, ?_, ?_, ?_, ?_, ?_⟩ <;>
    · intro h
      simp [Result.GetValueDate, Result.GetValueTime, Result.GetValueTimestamp,
        Result.GetValueBoolean, Result.GetValueInt8, Result.GetValueInt16,
        Result.GetValueInt32, Result.GetValueInt64, Result.GetValueUint8,
        Result.GetValueUint16, Result.GetValueUint32, Result.GetValueUint64,
        Result.GetValueFloat, Result.GetValueDouble, h]

/-- Witness for C10: the all-unresolved result decodes everything as the
zero value with `false`. -/
theorem c10_typed_getters_total_without_slot_witness :
    emptyResult.GetValueDate 0 0 = (goTimeZeroMicros, false) ∧
    emptyResult.GetValueTime 0 0 0 = (goTimeZeroMicros, false) ∧
    emptyResult.GetValueBoolean 0 0 = (false, false) ∧
    emptyResult.GetValueDouble 0 0 = (0, false) :=
  ⟨(c10_typed_getters_total_without_slot emptyResult 0 0 0).1 rfl,
   (c10_typed_getters_total_without_slot emptyResult 0 0 0).2.1 rfl,
   (c10_typed_getters_total_without_slot emptyResult 0 0 0).2.2.2.1 rfl,
   (c10_typed_getters_total_without_slot
     emptyResult 0 0 0).2.2.2.2.2.2.2.2.2.2.2.2.2 rfl⟩

/-- **C1 (code evaluation at the failing input).** On a result whose NULL
accessor reports the cell non-NULL and whose typed accessors return the
legitimate zero encodings, the date, time and timestamp decoders report NULL
— they never consult the NULL accessor and instead infer NULL from the zero
sentinel — while the decoders that do consult the NULL accessor first
(boolean, integers, floats) return the legitimate zero value.  The claim
(spec §4.4) requires the NULL predicate to be queried first in all typed
decoders, so the non-NULL date cell holding day offset 0 (1970-01-01) must
decode as that date, not as NULL. -/
theorem c1_zero_sentinel_decoded_as_null :
    (zeroCellResult.ValueNull.map fun f => f 0 0) = some false ∧
    zeroCellResult.GetValueDate 0 0 = (goTimeZeroMicros, false) ∧
    zeroCellResult.GetValueTime 0 0 0 = (goTimeZeroMicros, false) ∧
    zeroCellResult.GetValueTimestamp 0 0 = (goTimeZeroMicros, false) ∧
    zeroCellResult.GetValueBoolean 0 0 = (false, true) ∧
    zeroCellResult.GetValueInt32 0 0 = (0, true) ∧
    zeroCellResult.GetValueDouble 0 0 = (0, true) :=
  ⟨rfl, rfl, rfl, rfl, rfl, rfl, rfl⟩

/-- **C7 (counterexample).** On a cell whose dedicated NULL accessor reports
NULL but whose varchar accessor returns a non-nil pointer, the string decode
path reports the cell as present (non-NULL): the decoder's NULL-ness does
not equal the dedicated NULL accessor's verdict, because the string path
infers NULL-ness from pointer nullity only. -/
theorem c7_counterexample :
    mismatchResult.GetValueString 0 0 = ([], true) ∧
    mismatchResult.IsNull 0 0 = true :=
  ⟨rfl, rfl⟩

/-- **C7 (amended).** The string decode path infers SQL-NULL-ness solely
from the nullity of the pointer returned by the varchar accessor and never
consults the dedicated NULL accessor; `IsNull` reports the dedicated NULL
accessor when that slot is resolved and falls back to string-pointer nullity
otherwise; a non-nil pointer to an empty C string decodes as a present empty
string, not as NULL. -/
theorem c7_string_nullness_from_pointer :
    ∀ (r : Result) (column row : Int),
      (r.ValueString column row = none →
        r.GetValueString column row = ([], false)) ∧
      (∀ mem, r.ValueString column row = some mem →
        r.GetValueString column row = (mem.takeWhile (fun b => b ≠ 0), true)) ∧
      (∀ rest, r.ValueString column row = some (0 :: rest) →
        r.GetValueString column row = ([], true)) ∧
      (∀ f, r.ValueNull = some f → r.IsNull column row = f column row) ∧
      (r.ValueNull = none →
        r.IsNull column row = (r.ValueString column row).isNone) := by
  intro r column row
  refine ⟨?_, ?_, ?_, ?_, ?_⟩
  · intro h
    simp [Result.GetValueString, h]
  · intro mem h
    simp [Result.GetValueString, h, GoString, GoBytes]
  · intro rest h
    simp [Result.GetValueString, h, GoString, GoBytes]
  · intro f h
    simp [Result.IsNull, h]
  · intro h
    simp [Result.IsNull, h]

/-- Witness for C7 (amended): the empty-string cell decodes as a present
empty string. -/
theorem c7_string_nullness_from_pointer_witness :
    mismatchResult.GetValueString 2 3 = ([], true) :=
  (c7_string_nullness_from_pointer mismatchResult 2 3).2.2.1 [] rfl

/-- **C2 (counterexample).** After close (`closedPS` is exactly the
statement `Close` leaves behind), `ParameterCount` still returns the cached
parameter count with no error, and `StatementType` performs no closed-handle
check: it forwards the native reply (here `7`) as a success.  Neither
returns a closed-handle error, contradicting the claim for those two listed
operations. -/
theorem c2_counterexample :
    (PreparedStatement.Close lifecycleDB openPS).2.1 = closedPS ∧
    PreparedStatement.ParameterCount closedPS = 3 ∧
    PreparedStatement.StatementType lifecycleDB closedPS = .ok 7 :=
  ⟨rfl, rfl, rfl⟩

/-- **C2 (amended).** Closing twice is a safe idempotent no-op: the first
close destroys the native handle exactly once and clears it, the second
returns success without invoking the native destroy again.  After close,
bind, execute, parameter-name, parameter-type and clear-bindings return the
closed-statement error; `ParameterCount`, however, returns the cached
parameter count with no error, and `StatementType` performs no closed-handle
check at all — it invokes the native call on the nil handle and returns its
reply. -/
theorem c2_close_idempotent_and_closed_ops :
    ∀ (db : DB) (ps : PreparedStatement) (paramIdx : Int) (value : GoValue),
      (ps.handle = some () → db.DestroyPrepared = true →
        PreparedStatement.Close db ps =
          (.ok (), { ps with handle := none }, true) ∧
        PreparedStatement.Close db { ps with handle := none } =
          (.ok (), { ps with handle := none }, false)) ∧
      (ps.handle = none →
        PreparedStatement.Close db ps = (.ok (), ps, false) ∧
        PreparedStatement.BindParameter db ps paramIdx value = .err .closed ∧
        PreparedStatement.Execute db ps =
          .error "Prepared statement is closed" ∧
        PreparedStatement.ParameterName db ps paramIdx =
          .error "Prepared statement is closed" ∧
        PreparedStatement.ParameterType db ps paramIdx =
          .error "Prepared statement is closed" ∧
        PreparedStatement.ClearBindings db ps =
          .error "Prepared statement is closed" ∧
        PreparedStatement.ParameterCount ps = ps.numParams ∧
        PreparedStatement.StatementType db ps = .ok (db.StatementType none)) := by
  intro db ps paramIdx value
  constructor
  · intro h hD
    constructor
    · simp [PreparedStatement.Close, h, hD]
    · simp [PreparedStatement.Close]
  · intro h
    refine ⟨?_, ?_, ?_, ?_, ?_, ?_, rfl, ?_⟩ <;>
      simp [PreparedStatement.Close, PreparedStatement.BindParameter,
        PreparedStatement.Execute, PreparedStatement.ParameterName,
        PreparedStatement.ParameterType, PreparedStatement.ClearBindings,
        PreparedStatement.StatementType, h]

/-- Witness for C2 (amended): the concrete close/closed-op behaviors. -/
theorem c2_close_idempotent_and_closed_ops_witness :
    PreparedStatement.Close lifecycleDB openPS =
      (.ok (), { openPS with handle := none }, true) ∧
    PreparedStatement.ClearBindings lifecycleDB closedPS =
      .error "Prepared statement is closed" :=
  ⟨((c2_close_idempotent_and_closed_ops lifecycleDB openPS 1 .vNil).1
      rfl rfl).1,
   ((c2_close_idempotent_and_closed_ops lifecycleDB closedPS 1 .vNil).2
      rfl).2.2.2.2.2.1⟩

/-- **C4 (counterexample).** Binding to parameter index 2 of a 1-parameter
statement — with the param-type slot resolved and the null-bind slot
available — fails with the generic "Parameter type not available" error, not
with a ParameterIndexOutOfRange error (no such error exists anywhere in the
driver), contradicting the claim. -/
theorem c4_counterexample :
    PreparedStatement.BindParameter lifecycleDB oneParamPS 2 (.vInt 5) =
      .err .paramTypeUnavailable :=
  rfl

/-- **C4 (amended).** Binding a non-nil value to a parameter index strictly
greater than the statement's parameter count fails — but with the generic
"Parameter type not available" error (the out-of-range index merely skips
the parameter-type lookup), not with a dedicated ParameterIndexOutOfRange
error, and not as a successful bind; a nil value is still forwarded to the
native null-bind entry point at the out-of-range index. -/
theorem c4_out_of_range_bind_generic_error :
    ∀ (db : DB) (ps : PreparedStatement) (paramIdx : Int) (value : GoValue)
      (f : Int → DuckDBType),
      ps.handle = some () → db.BindNull = true → db.ParamType = some f →
      ps.numParams < paramIdx →
      (value ≠ .vNil →
        PreparedStatement.BindParameter db ps paramIdx value =
          .err .paramTypeUnavailable) ∧
      PreparedStatement.BindParameter db ps paramIdx .vNil =
        db.issue (.null paramIdx) := by
  intro db ps paramIdx value f hh hbn hpt hgt
  have hlookup :
      PreparedStatement.paramTypeLookup db ps paramIdx = .invalid := by
    simp only [PreparedStatement.paramTypeLookup, hpt]
    rw [if_neg]
    rintro ⟨h1, h2⟩
    omega
  constructor
  · intro hv
    cases value <;>
      first
        | exact absurd rfl hv
        | simp [PreparedStatement.BindParameter, hh, hbn, hlookup]
  · simp [PreparedStatement.BindParameter, hh, hbn, hlookup]

/-- Witness for C4 (amended): the concrete out-of-range bind. -/
theorem c4_out_of_range_bind_generic_error_witness :
    PreparedStatement.BindParameter lifecycleDB oneParamPS 2 (.vString [104]) =
      .err .paramTypeUnavailable :=
  ((c4_out_of_range_bind_generic_error lifecycleDB oneParamPS 2
      (.vString [104]) (fun _ => .integer) rfl rfl rfl (by decide)).1
    (fun h => GoValue.noConfusion h))

/-- A native `param_type` table whose answers differ between native index 0
and native index 1, exposing which index the driver passes. -/
def c5ParamTypeTable : Int → DuckDBType :=
  fun i => if i = 0 then .integer else .varchar

/-- `lifecycleDB` with the discriminating `param_type` table and a
`parameter_name` table that only knows native index 0. -/
def c5DB : DB :=
  { lifecycleDB with
    ParamType := some c5ParamTypeTable
    ParameterName := some fun i => if i = 0 then some [110] else none }

/-- **C5 (code evaluation at the failing input).** For caller index 1 on a
1-parameter statement: the standalone metadata queries `ParameterType` and
`ParameterName` pass the 0-based native index 0 (returning the INTEGER type
and the name that only native index 0 has), and the null-bind path passes
the 1-based index 1 unchanged — but the parameter-type lookup inside
`BindParameter` passes `paramIdx` itself (native index 1, answering
VARCHAR), not `paramIdx - 1` (native index 0, answering INTEGER), despite
computing `idx := paramIdx - 1` for its own bounds guard.  The claim (and
the source's own comment) requires the lookup to query native index 0. -/
theorem c5_bind_param_type_lookup_wrong_index :
    PreparedStatement.ParameterType c5DB oneParamPS 1 = .ok .integer ∧
    PreparedStatement.ParameterName c5DB oneParamPS 1 = .ok [110] ∧
    c5ParamTypeTable 0 = .integer ∧
    PreparedStatement.paramTypeLookup c5DB oneParamPS 1 = .varchar ∧
    PreparedStatement.BindParameter c5DB oneParamPS 1 .vNil = .ok (.null 1) :=
  ⟨rfl, rfl, rfl, rfl, rfl⟩

/-- The concrete map value `map[string]any{"a": 1}` and its JSON text. -/
def c6MapValue : GoValue := .vMap [([97], .vInt 1)]

/-- **C6 (counterexample).** Binding the map value to a MAP target routes
the value through the varchar bind entry point as JSON text — the binder
does not fail fast with an UnsupportedType error for MAP, contradicting the
claim. -/
theorem c6_counterexample :
    Duck.BindParameter lifecycleDB 1 c6MapValue .map =
      .ok (.varchar 1 [123, 34, 97, 34, 58, 49, 125]) :=
  rfl

/-- **C6 (amended).** LIST, STRUCT, INTERVAL and BLOB targets fail fast with
an UnsupportedType error before any native call — in particular they never
route through the varchar bind entry point; a MAP target, however, is
JSON-encoded and routed through the varchar bind entry point (a lossy
JSON-text fallback), failing with UnsupportedType only when no varchar entry
point is resolved. -/
theorem c6_composite_type_binding :
    ∀ (db : DB) (paramIdx : Int) (value : GoValue),
      Duck.BindParameter db paramIdx value .list = .err (.notSupported .list) ∧
      Duck.BindParameter db paramIdx value .struct =
        .err (.notSupported .struct) ∧
      Duck.BindParameter db paramIdx value .interval =
        .err (.notSupported .interval) ∧
      Duck.BindParameter db paramIdx value .blob = .err (.notSupported .blob) ∧
      (db.BindVarchar = true →
        Duck.BindParameter db paramIdx value .map =
          db.issue (.varchar paramIdx (goJSONValue value))) ∧
      (db.BindVarchar = false →
        Duck.BindParameter db paramIdx value .map = .err (.noSuitable .map)) := by
  intro db paramIdx value
  refine ⟨rfl, rfl, rfl, rfl, ?_, ?_⟩ <;>
    · intro h
      simp [Duck.BindParameter, marshalToJSON, h]

/-- Witness for C6 (amended): a list value bound to a MAP target goes out
through the varchar entry point as JSON. -/
theorem c6_composite_type_binding_witness :
    Duck.BindParameter lifecycleDB 2 (.vList []) .map =
      lifecycleDB.issue (.varchar 2 (goJSONValue (.vList []))) :=
  (c6_composite_type_binding lifecycleDB 2 (.vList [])).2.2.2.2.1 rfl

theorem wrapToInt64_eq_self (x : Int) (h1 : -9223372036854775808 ≤ x)
    (h2 : x ≤ 9223372036854775807) : wrapToInt64 x = x := by
  have h : wrapToInt64 x =
      (x + 9223372036854775808) % 18446744073709551616 -
        9223372036854775808 := rfl
  rw [h]
  omega

theorem toUint64_vUint64_ok (n : Int) (h1 : 0 ≤ n)
    (h2 : n ≤ 18446744073709551615) : ToUint64 (.vUint64 n) = .ok n :=
  (unsignedHostCase_uint64_ok n n).mpr ⟨h1, h2, rfl⟩

/-- **C9.** The fallback chains of the binder are value-preserving and
capability-gated.  For a UBIGINT target: the `uint64` entry point is used
when resolved; otherwise the `int64` entry point is used only for values at
most `2^63 - 1` and receives the identical numeric value; a larger value, or
an empty chain, fails with the UnsupportedType ("no suitable bind function")
error rather than binding lossily.  For a BOOLEAN target: the `boolean`
entry point is used when resolved, otherwise `int32` then `int64` receive
`1`/`0`, and an empty chain fails the same way. -/
theorem c9_fallback_chain_value_preserving :
    ∀ (db : DB) (paramIdx n : Int) (b : Bool),
      0 ≤ n → n ≤ 18446744073709551615 →
      ((db.BindUint64 = true →
          Duck.BindParameter db paramIdx (.vUint64 n) .ubigint =
            db.issue (.uint64 paramIdx n)) ∧
       (db.BindUint64 = false → db.BindInt64 = true →
          n ≤ 9223372036854775807 →
          Duck.BindParameter db paramIdx (.vUint64 n) .ubigint =
            db.issue (.int64 paramIdx n)) ∧
       (db.BindUint64 = false → db.BindInt64 = true →
          9223372036854775807 < n →
          Duck.BindParameter db paramIdx (.vUint64 n) .ubigint =
            .err (.noSuitable .ubigint)) ∧
       (db.BindUint64 = false → db.BindInt64 = false →
          Duck.BindParameter db paramIdx (.vUint64 n) .ubigint =
            .err (.noSuitable .ubigint))) ∧
      ((db.BindBoolean = true →
          Duck.BindParameter db paramIdx (.vBool b) .boolean =
            db.issue (.boolean paramIdx b)) ∧
       (db.BindBoolean = false → db.BindInt32 = true →
          Duck.BindParameter db paramIdx (.vBool b) .boolean =
            db.issue (.int32 paramIdx (if b then 1 else 0))) ∧
       (db.BindBoolean = false → db.BindInt32 = false → db.BindInt64 = true →
          Duck.BindParameter db paramIdx (.vBool b) .boolean =
            db.issue (.int64 paramIdx (if b then 1 else 0))) ∧
       (db.BindBoolean = false → db.BindInt32 = false → db.BindInt64 = false →
          Duck.BindParameter db paramIdx (.vBool b) .boolean =
            .err (.noSuitable .boolean))) := by
  intro db paramIdx n b h1 h2
  have hu : ToUint64 (.vUint64 n) = .ok n := toUint64_vUint64_ok n h1 h2
  have hb : ToBoolean (.vBool b) = .ok b := rfl
  have hpow : ((2 : Int) ^ 63 - 1) = 9223372036854775807 := by norm_num
  refine ⟨⟨?_, ?_, ?_, ?_⟩, ?_, ?_, ?_, ?_⟩
  · intro h3
    simp [Duck.BindParameter, hu, h3]
  · intro h3 h4 h5
    have hwrap : wrapToInt64 n = n := wrapToInt64_eq_self n (by omega) h5
    simp [Duck.BindParameter, hu, h3, h4, hpow, h5, hwrap]
  · intro h3 h4 h5
    simp [Duck.BindParameter, hu, h3, h4, hpow]
    omega
  · intro h3 h4
    simp [Duck.BindParameter, hu, h3, h4]
  · intro h3
    simp [Duck.BindParameter, hb, h3]
  · intro h3 h4
    simp [Duck.BindParameter, hb, h3, h4]
  · intro h3 h4 h5
    simp [Duck.BindParameter, hb, h3, h4, h5]
  · intro h3 h4 h5
    simp [Duck.BindParameter, hb, h3, h4, h5]

/-- Witness for C9: the resolved-slot path and an int64 fallback. -/
theorem c9_fallback_chain_value_preserving_witness :
    Duck.BindParameter lifecycleDB 1 (.vUint64 5) .ubigint =
      lifecycleDB.issue (.uint64 1 5) ∧
    Duck.BindParameter lifecycleDB 1 (.vBool true) .boolean =
      lifecycleDB.issue (.boolean 1 true) :=
  ⟨((c9_fallback_chain_value_preserving lifecycleDB 1 5 true (by decide)
      (by decide)).1.1) rfl,
   ((c9_fallback_chain_value_preserving lifecycleDB 1 5 true (by decide)
      (by decide)).2.1) rfl⟩

/-- **C3 (counterexample).** The host value `uint8(100)` is inside the
TINYINT range, yet converting it for a TINYINT target fails with the
conversion ("out of range") error, because the source compares
`uint64(v)` against the wrapped `uint64(minValue)` of the signed bound: the
claim's "a value inside the range succeeds" is false. -/
theorem c3_counterexample :
    int8T.minVal ≤ 100 ∧ (100 : Int) ≤ int8T.maxVal ∧
    ToInt8 (.vUint8 100) = .error (.outOfRange 100) ∧
    Duck.BindParameter lifecycleDB 1 (.vUint8 100) .tinyint =
      .err (.conv .tinyint (.outOfRange 100)) :=
  ⟨by decide, by decide, rfl, rfl⟩

/-- **C3 (amended).** For every integer host value and every integer target
type: a successful conversion always passes the identical numeric value (no
silent truncation), and a value outside the target's range always fails with
a ConversionError.  A value inside the range succeeds when the host type is
signed and the target is any type other than UBIGINT, or the host type is
unsigned and the target is unsigned; however, every signed-typed host value
(including Go's `int`) is rejected for a UBIGINT target and every
unsigned-typed host value is rejected for a signed target — even in range —
because the source widens the target bounds through wrapping conversions
(spurious ConversionError, never truncation).  A float host value converts
successfully only to exactly its own value, and a float with a fractional
part always fails.  At the binder level, binding `int(1000)` to a TINYINT
target fails with the conversion error and binding `int(100)` succeeds,
passing 100 to the int8 entry point. -/
theorem c3_range_checked_integer_binding :
    (∀ (tg : IntTarget) (v : GoValue) (x w : Int),
        v.intVal? = some x → ToIntX tg.ty v = .ok w → w = x) ∧
    (∀ (tg : IntTarget) (v : GoValue) (x : Int),
        v.intVal? = some x → (x < tg.ty.minVal ∨ tg.ty.maxVal < x) →
        convOk (ToIntX tg.ty v) = false) ∧
    (∀ (tg : IntTarget) (v : GoValue) (x : Int),
        v.signedIntHost → v.intVal? = some x → tg ≠ .u64 →
        tg.ty.minVal ≤ x → x ≤ tg.ty.maxVal → ToIntX tg.ty v = .ok x) ∧
    (∀ (tg : IntTarget) (v : GoValue) (x : Int),
        v.unsignedIntHost → v.intVal? = some x → tg.ty.signed = false →
        tg.ty.minVal ≤ x → x ≤ tg.ty.maxVal → ToIntX tg.ty v = .ok x) ∧
    (∀ v : GoValue, v.signedIntHost → convOk (ToIntX uint64T v) = false) ∧
    (∀ (tg : IntTarget) (v : GoValue),
        v.unsignedIntHost → tg.ty.signed = true →
        convOk (ToIntX tg.ty v) = false) ∧
    (∀ (t : IntType) (q : ℚ) (w : Int),
        ToIntX t (.vFloat64 q) = .ok w → (w : ℚ) = q) ∧
    (∀ (t : IntType) (q : ℚ), q.den ≠ 1 →
        convOk (ToIntX t (.vFloat64 q)) = false) ∧
    (∀ (db : DB) (paramIdx : Int),
        Duck.BindParameter db paramIdx (.vInt 1000) .tinyint =
          .err (.conv .tinyint (.outOfRange 1000)) ∧
        (db.BindInt8 = true →
          Duck.BindParameter db paramIdx (.vInt 100) .tinyint =
            db.issue (.int8 paramIdx 100))) :=
  ⟨toIntX_ok_preserves, toIntX_out_of_range_fails, toIntX_signed_in_range_ok,
   toIntX_unsigned_in_range_ok, toIntX_signed_to_uint64_fails,
   toIntX_unsigned_to_signed_fails,
   fun t q w hok => floatHostCase_ok_exact t q w hok,
   fun t q h => floatHostCase_fractional_fails t q h,
   fun db paramIdx =>
     ⟨rfl, fun h => by
       simp [Duck.BindParameter,
         show ToInt8 (.vInt 100) = Except.ok 100 from rfl, h]⟩⟩

/-- Witness for C3 (amended): concrete in-range and out-of-range
conversions and the TINYINT bind example. -/
theorem c3_range_checked_integer_binding_witness :
    ToIntX IntTarget.i8.ty (.vInt 100) = .ok 100 ∧
    convOk (ToIntX IntTarget.i8.ty (.vInt 1000)) = false ∧
    convOk (ToIntX IntTarget.u64.ty (.vInt64 5)) = false ∧
    Duck.BindParameter lifecycleDB 1 (.vInt 100) .tinyint =
      lifecycleDB.issue (.int8 1 100) :=
  ⟨c3_range_checked_integer_binding.2.2.1 .i8 (.vInt 100) 100 trivial rfl
      (by decide) (by decide) (by decide),
   c3_range_checked_integer_binding.2.1 .i8 (.vInt 1000) 1000 rfl
      (by decide),
   c3_range_checked_integer_binding.2.2.2.2.1 (.vInt64 5) trivial,
   (c3_range_checked_integer_binding.2.2.2.2.2.2.2.2 lifecycleDB 1).2 rfl⟩

end PDuckDB
